import Mathlib

/-!
Shallow embedding of the TAT-C architecture-demo design-space enumeration
engine (package tatc: util.py, agency.py, space.py, ground.py, mission.py).

Modelling conventions:
* Python floats are idealized as rationals (for the combinatorial
  generators, whose claim-relevant values are exact) and as reals for the
  orbital-period formula.
* A Python value that may be a scalar or a list (a "rangeable" field) is
  modelled by RVal; Python None is Option.none.
* Exceptions are modelled by Except PyErr; distinct Python exception
  classes that no claim distinguishes are collapsed into PyErr.typeErr,
  while NotImplementedError keeps its own constructor.
* The sun-synchronous inclination (an irrational real computed by
  get_sso_inclination and only ever copied around by the generators) is
  represented symbolically by InclVal.ssoOf altitude.
-/

/-- Python exception outcomes distinguished by the embedding. -/
inductive PyErr where
  | notImplemented
  | typeErr
  | valueErr
  | indexErr
  | attrErr
  | zeroDiv
  deriving DecidableEq, Repr

/-- A Python attribute that may hold None, a scalar, or a list of scalars
(the "multiple values allowed for a design space" fields). -/
inductive RVal (α : Type) where
  | scalar (a : Option α)
  | many (l : List α)
  deriving DecidableEq, Repr

/-- The try-iter-except-TypeError idiom: a list iterates element-wise, any
non-iterable scalar (including None and strings) becomes a singleton. -/
def RVal.iter : RVal α → List (Option α)
  | .scalar a => [a]
  | .many l => l.map some

/-- Extracts a defined scalar (a Python int/float attribute); None or a
list yields none (the surrounding Python operation would raise). -/
def RVal.scalar? : RVal α → Option α
  | .scalar (some a) => some a
  | _ => none

/-- ASCII upper-casing of one character (model of str.upper on the
ASCII-only enumeration member strings). -/
def upChar (c : Char) : Char :=
  if 97 ≤ c.toNat ∧ c.toNat ≤ 122 then Char.ofNat (c.toNat - 32) else c

/-- ASCII upper-casing of a string. -/
def upStr (s : String) : String :=
  ⟨s.data.map upChar⟩

/-- Enumeration of recognized agency types (agency.py). -/
inductive AgencyType where
  | ACADEMIC
  | GOVERNMENT
  | COMMERCIAL
  deriving DecidableEq, Repr

/-- The string value of an agency type member. -/
def AgencyType.value : AgencyType → String
  | .ACADEMIC => "ACADEMIC"
  | .GOVERNMENT => "GOVERNMENT"
  | .COMMERCIAL => "COMMERCIAL"

/-- Enumeration of recognized communication bands (util.py). -/
inductive CommunicationBand where
  | VHF | UHF | L | S | C | X | KU | KA | LASER
  deriving DecidableEq, Repr

/-- The string value of a communication band member. -/
def CommunicationBand.value : CommunicationBand → String
  | .VHF => "VHF"
  | .UHF => "UHF"
  | .L => "L"
  | .S => "S"
  | .C => "C"
  | .X => "X"
  | .KU => "KU"
  | .KA => "KA"
  | .LASER => "LASER"

/-- Enumeration of recognized objective types (mission.py). -/
inductive ObjectiveType where
  | MAX
  | MIN
  | TAR
  deriving DecidableEq, Repr

/-- The string value of an objective type member. -/
def ObjectiveType.value : ObjectiveType → String
  | .MAX => "MAX"
  | .MIN => "MIN"
  | .TAR => "TAR"

/-- Value lookup AgencyType(u): the member whose value is u, else None
(the ValueError is caught by the bare except). -/
def parseAgencyType (u : String) : Option AgencyType :=
  if u = "ACADEMIC" then some .ACADEMIC
  else if u = "GOVERNMENT" then some .GOVERNMENT
  else if u = "COMMERCIAL" then some .COMMERCIAL
  else none

/-- Value lookup CommunicationBand(u). -/
def parseCommunicationBand (u : String) : Option CommunicationBand :=
  if u = "VHF" then some .VHF
  else if u = "UHF" then some .UHF
  else if u = "L" then some .L
  else if u = "S" then some .S
  else if u = "C" then some .C
  else if u = "X" then some .X
  else if u = "KU" then some .KU
  else if u = "KA" then some .KA
  else if u = "LASER" then some .LASER
  else none

/-- Value lookup ObjectiveType(u). -/
def parseObjectiveType (u : String) : Option ObjectiveType :=
  if u = "MAX" then some .MAX
  else if u = "MIN" then some .MIN
  else if u = "TAR" then some .TAR
  else none

/-- A dynamically-typed Python value passed to the lenient enum parsers:
a string, an already-parsed member (of any of the three str-enums), a
(nestable) list, None, or a number. -/
inductive JKey where
  | strK (s : String)
  | agencyK (a : AgencyType)
  | bandK (b : CommunicationBand)
  | objK (o : ObjectiveType)
  | listK (l : List JKey)
  | noneK
  | numK (q : ℚ)

/-- The dynamic return shape of the enum get functions: a scalar parse
result, or an element-wise mapped list (itself possibly nested). -/
inductive GetOut (α : Type) where
  | one (o : Option α)
  | many (l : List (GetOut α))

mutual

/-- AgencyType.get (agency.py lines 18-27): member passes through, list
maps element-wise, a string is matched after upper-casing, anything else
(caught by the bare except) yields None.  Members of the other str-enums
reach the upper-case branch through their string value. -/
def AgencyType.get : JKey → GetOut AgencyType
  | .agencyK a => .one (some a)
  | .listK l => .many (AgencyType.getList l)
  | .strK s => .one (parseAgencyType (upStr s))
  | .bandK b => .one (parseAgencyType (upStr b.value))
  | .objK o => .one (parseAgencyType (upStr o.value))
  | .noneK => .one none
  | .numK _ => .one none

/-- Element-wise application of AgencyType.get. -/
def AgencyType.getList : List JKey → List (GetOut AgencyType)
  | [] => []
  | k :: ks => AgencyType.get k :: AgencyType.getList ks

end

mutual

/-- CommunicationBand.get (util.py lines 132-141). -/
def CommunicationBand.get : JKey → GetOut CommunicationBand
  | .bandK b => .one (some b)
  | .listK l => .many (CommunicationBand.getList l)
  | .strK s => .one (parseCommunicationBand (upStr s))
  | .agencyK a => .one (parseCommunicationBand (upStr a.value))
  | .objK o => .one (parseCommunicationBand (upStr o.value))
  | .noneK => .one none
  | .numK _ => .one none

/-- Element-wise application of CommunicationBand.get. -/
def CommunicationBand.getList : List JKey → List (GetOut CommunicationBand)
  | [] => []
  | k :: ks => CommunicationBand.get k :: CommunicationBand.getList ks

end

mutual

/-- ObjectiveType.get (mission.py lines 123-132). -/
def ObjectiveType.get : JKey → GetOut ObjectiveType
  | .objK o => .one (some o)
  | .listK l => .many (ObjectiveType.getList l)
  | .strK s => .one (parseObjectiveType (upStr s))
  | .agencyK a => .one (parseObjectiveType (upStr a.value))
  | .bandK b => .one (parseObjectiveType (upStr b.value))
  | .noneK => .one none
  | .numK _ => .one none

/-- Element-wise application of ObjectiveType.get. -/
def ObjectiveType.getList : List JKey → List (GetOut ObjectiveType)
  | [] => []
  | k :: ks => ObjectiveType.get k :: ObjectiveType.getList ks

end

/-- A range of quantitative values (util.py QuantitativeRange).  The
endpoints are modelled as always-present rationals; numberSteps is a
Python int, stepSize a Python number, either possibly None. -/
structure QuantitativeRange where
  minValue : ℚ
  maxValue : ℚ
  numberSteps : Option ℤ
  stepSize : Option ℚ
  entityId : Option String
  deriving DecidableEq, Repr

/-- np.linspace(mn, mx, k) for a nonnegative sample count: k evenly
spaced values from mn, with the endpoint mx included for k at least 2. -/
def linspaceN (mn mx : ℚ) : ℕ → List ℚ
  | 0 => []
  | 1 => [mn]
  | m + 2 => (List.range (m + 2)).map fun i : ℕ => mn + (i : ℚ) * (mx - mn) / (m + 1)

/-- np.linspace with a Python int sample count: a negative count raises
ValueError. -/
def linspaceZ (mn mx : ℚ) (k : ℤ) : Except PyErr (List ℚ) :=
  if k < 0 then .error .valueErr else .ok (linspaceN mn mx k.toNat)

/-- The stepSize / endpoint fallback of QuantitativeRange (util.py lines
192-199): a truthy stepSize determines the number of steps and a
recomputed effective maximum, otherwise the two endpoints are produced. -/
def QuantitativeRange.iterStep (r : QuantitativeRange) : Except PyErr (List ℚ) :=
  match r.stepSize with
  | some s =>
    if s = 0 then .ok [r.minValue, r.maxValue]
    else
      let k : ℤ := 1 + ⌊(r.maxValue - r.minValue) / s⌋
      linspaceZ r.minValue (r.minValue + (k - 1) * s) k
  | none => .ok [r.minValue, r.maxValue]

/-- QuantitativeRange iteration (util.py lines 186-199).  The if tests
use Python truthiness, so numberSteps 0 and stepSize 0 behave as
absent. -/
def QuantitativeRange.iterate (r : QuantitativeRange) : Except PyErr (List ℚ) :=
  match r.numberSteps with
  | some k => if k = 0 then r.iterStep else linspaceZ r.minValue r.maxValue k
  | none => r.iterStep

/-- Enumeration of recognized orbit types (space.py). -/
inductive OrbitType where
  | KEPLERIAN
  | CIRCULAR
  | SUN_SYNCHRONOUS
  deriving DecidableEq, Repr

/-- An inclination value: a number in degrees, the string sentinel SSO,
or the sun-synchronous inclination computed from an altitude by
get_sso_inclination (kept symbolic: it is irrational and only ever
copied, never arithmetically consumed, by the generators). -/
inductive InclVal where
  | num (q : ℚ)
  | ssoStr
  | ssoOf (altitude : ℚ)
  deriving DecidableEq, Repr

/-- An orbital trajectory (space.py Orbit); field names follow the
source.  altitude and inclination are rangeable. -/
structure Orbit where
  orbitType : Option OrbitType
  altitude : RVal ℚ
  inclination : RVal InclVal
  semimajorAxis : Option ℚ
  eccentricity : Option ℚ
  periapsisArgument : Option ℚ
  rightAscensionAscendingNode : Option ℚ
  trueAnomaly : Option ℚ
  epoch : Option String
  localSolarTimeAscendingNode : Option String
  entityId : Option String
  deriving DecidableEq, Repr

/-- Orbit.__init__ (space.py lines 151-179): derives the sun-synchronous
inclination when the altitude is a plain number, forces eccentricity 0
for circular and sun-synchronous orbits, and defaults eccentricity and
periapsis argument to 0 for Keplerian orbits with missing information.
The orbitType argument is taken already parsed (OrbitType.get of a
member or recognized string). -/
def Orbit.init (orbitType : Option OrbitType) (altitude : RVal ℚ)
    (inclination : RVal InclVal) (semimajorAxis eccentricity periapsisArgument
    rightAscensionAscendingNode trueAnomaly : Option ℚ)
    (epoch localSolarTimeAscendingNode : Option String)
    (entityId : Option String) : Orbit :=
  let inclination' :=
    match altitude with
    | .scalar (some alt) =>
      if inclination = .scalar (some .ssoStr) ∨ orbitType = some .SUN_SYNCHRONOUS then
        RVal.scalar (some (.ssoOf alt))
      else inclination
    | _ => inclination
  let eccentricity' :=
    if orbitType = some .CIRCULAR ∨ orbitType = some .SUN_SYNCHRONOUS then some 0
    else if orbitType = some .KEPLERIAN ∧ eccentricity = none then some 0
    else eccentricity
  let periapsisArgument' :=
    if orbitType = some .KEPLERIAN ∧ periapsisArgument = none then some 0
    else periapsisArgument
  { orbitType := orbitType
    altitude := altitude
    inclination := inclination'
    semimajorAxis := semimajorAxis
    eccentricity := eccentricity'
    periapsisArgument := periapsisArgument'
    rightAscensionAscendingNode := rightAscensionAscendingNode
    trueAnomaly := trueAnomaly
    epoch := epoch
    localSolarTimeAscendingNode := localSolarTimeAscendingNode
    entityId := entityId }

/-- Orbit.__iter__ (space.py lines 181-208): the Cartesian product of the
altitude candidates and the inclination candidates (a string inclination
is a singleton), each combination rebuilt through the constructor with
all other fields held fixed. -/
def Orbit.iterate (o : Orbit) : List Orbit :=
  (o.altitude.iter.map fun altitude =>
    o.inclination.iter.map fun inclination =>
      Orbit.init o.orbitType (.scalar altitude) (.scalar inclination)
        o.semimajorAxis o.eccentricity o.periapsisArgument
        o.rightAscensionAscendingNode o.trueAnomaly o.epoch
        o.localSolarTimeAscendingNode none).flatten

/-- Orbit.get_semimajor_axis (space.py lines 218-221), rational model. -/
def Orbit.get_semimajor_axis (altitude : ℚ) : ℚ :=
  let re : ℚ := 6378.14
  re + altitude

/-- Orbit.get_semimajor_axis over the reals (for the orbital-period
formula). -/
noncomputable def Orbit.get_semimajor_axisR (altitude : ℝ) : ℝ :=
  let re : ℝ := 6378.14
  re + altitude

/-- Orbit.get_orbital_period (space.py lines 210-216): the code's
gravitational constant is 3.98600440e5 km^3/s^2. -/
noncomputable def Orbit.get_orbital_period (altitude : ℝ) : ℝ :=
  let sma := Orbit.get_semimajor_axisR altitude
  let mu : ℝ := 3.98600440 * 10 ^ 5
  2 * Real.pi * Real.sqrt (sma ^ 3 / mu)

/-- Python truthiness of an optional string (acronym defaulting). -/
def truthyStr : Option String → Bool
  | some s => s ≠ ""
  | none => false

/-- A satellite template (space.py Satellite), restricted to the fields
read by the generator claims; remaining fields are inert payload. -/
structure Satellite where
  name : Option String
  acronym : Option String
  mass : ℚ
  volume : ℚ
  power : ℚ
  orbit : Option Orbit
  entityId : Option String
  deriving DecidableEq, Repr

/-- Satellite.__init__ (space.py lines 63-82): the acronym falls back to
the name when falsy. -/
def Satellite.init (name acronym : Option String) (mass volume power : ℚ)
    (orbit : Option Orbit) (entityId : Option String) : Satellite :=
  { name := name
    acronym := if truthyStr acronym then acronym else name
    mass := mass
    volume := volume
    power := power
    orbit := orbit
    entityId := entityId }

/-- Enumeration of recognized constellation types (space.py). -/
inductive ConstellationType where
  | DELTA_HOMOGENOUS
  | DELTA_HETEROGENEOUS
  | PRECESSING
  | AD_HOC
  | TRAIN
  deriving DecidableEq, Repr

/-- The orbit attribute of a constellation: None, a single Orbit, or a
list of orbits. -/
inductive OrbitField where
  | noneF
  | one (o : Orbit)
  | many (l : List Orbit)
  deriving DecidableEq, Repr

/-- Candidate orbits for constellation iteration (space.py lines
398-400): a single Orbit iterates through Orbit.__iter__, a list
iterates element-wise, None is a singleton. -/
def OrbitField.iter : OrbitField → List (Option Orbit)
  | .noneF => [none]
  | .one o => o.iterate.map some
  | .many l => l.map some

/-- Repackages one iterated orbit candidate as an orbit attribute. -/
def OrbitField.ofCand : Option Orbit → OrbitField
  | none => .noneF
  | some o => .one o

/-- A set of orbital trajectories (space.py Constellation). -/
structure Constellation where
  constellationType : Option ConstellationType
  numberSatellites : RVal ℕ
  numberPlanes : RVal ℕ
  relativeSpacing : RVal ℚ
  satelliteInterval : RVal String
  orbit : OrbitField
  satellites : Option (List Satellite)
  entityId : Option String
  deriving DecidableEq, Repr

/-- Constellation.__init__ (space.py lines 283-314): defaults
numberPlanes to 1 for delta constellations, and defaults relativeSpacing
to 1 for multi-plane sun-synchronous delta constellations (0 otherwise)
when numberPlanes is a plain number.  The constellationType argument is
taken already parsed: ConstellationType.get comes from the EnumEntity
base class, which is not present under the provided sources.  The
numeric-minutes satelliteInterval conversion is not modelled (every
claim passes a string or None, which the constructor stores verbatim). -/
def Constellation.init (constellationType : Option ConstellationType)
    (numberSatellites numberPlanes : RVal ℕ) (relativeSpacing : RVal ℚ)
    (satelliteInterval : RVal String) (orbit : OrbitField)
    (satellites : Option (List Satellite)) (entityId : Option String) :
    Constellation :=
  let isDelta := constellationType = some .DELTA_HOMOGENOUS ∨
    constellationType = some .DELTA_HETEROGENEOUS
  let numberPlanes' :=
    if numberPlanes = .scalar none ∧ isDelta then .scalar (some 1)
    else numberPlanes
  let relativeSpacing' :=
    match relativeSpacing, numberPlanes' with
    | .scalar none, .scalar (some p) =>
      if isDelta then
        match orbit with
        | .one o =>
          if 1 < p ∧ (o.orbitType = some .SUN_SYNCHRONOUS ∨
              o.inclination = .scalar (some .ssoStr)) then
            RVal.scalar (some 1)
          else .scalar (some 0)
        | _ => .scalar (some 0)
      else .scalar none
    | rs, _ => rs
  { constellationType := constellationType
    numberSatellites := numberSatellites
    numberPlanes := numberPlanes'
    relativeSpacing := relativeSpacing'
    satelliteInterval := satelliteInterval
    orbit := orbit
    satellites := satellites
    entityId := entityId }

/-- The first conjunct of the combination filter of
Constellation.__iter__: relativeSpacing is None or numberPlanes is None
or relativeSpacing is below numberPlanes. -/
def spacingCheck : Option ℚ → Option ℕ → Bool
  | none, none => true
  | none, some _ => true
  | some _, none => true
  | some rs, some p => decide (rs < (p : ℚ))

/-- The second conjunct of the filter: numberSatellites is None or
numberPlanes is None or numberPlanes does not exceed numberSatellites. -/
def planeCountCheck : Option ℕ → Option ℕ → Bool
  | none, none => true
  | none, some _ => true
  | some _, none => true
  | some n, some p => decide (p ≤ n)

/-- The combination filter of Constellation.__iter__ (space.py lines
413-418): the conjunction of the two checks, in the source's operand
order. -/
def constellationFilter (numberSatellites numberPlanes : Option ℕ)
    (relativeSpacing : Option ℚ) : Bool :=
  spacingCheck relativeSpacing numberPlanes &&
    planeCountCheck numberSatellites numberPlanes

/-- Constellation.__iter__ (space.py lines 379-419): with satellites
already bound the constellation is its own singleton; otherwise the
filtered Cartesian product of the five rangeable attributes, each kept
combination rebuilt through the constructor. -/
def Constellation.iterate (c : Constellation) : List Constellation :=
  if c.satellites ≠ none then [c]
  else
    (c.numberSatellites.iter.map fun numberSatellites =>
      (c.numberPlanes.iter.map fun numberPlanes =>
        (c.relativeSpacing.iter.map fun relativeSpacing =>
          (c.satelliteInterval.iter.map fun satelliteInterval =>
            (c.orbit.iter.filterMap fun orbit =>
              if constellationFilter numberSatellites numberPlanes
                  relativeSpacing then
                some (Constellation.init c.constellationType
                  (.scalar numberSatellites) (.scalar numberPlanes)
                  (.scalar relativeSpacing) (.scalar satelliteInterval)
                  (OrbitField.ofCand orbit) none none)
              else none)).flatten).flatten).flatten).flatten

/-- The plane index of satellite s in generate_delta_orbits (space.py
lines 320-321): int(s / satellitesPerPlane), i.e. the floor of the true
division, with satellitesPerPlane = ceil(numberSatellites /
numberPlanes). -/
def walkerPlane (numberSatellites numberPlanes s : ℕ) : ℕ :=
  let satellitesPerPlane := (numberSatellites + numberPlanes - 1) / numberPlanes
  s / satellitesPerPlane

/-- The right ascension of the ascending node assigned to satellite s
(space.py line 329).  Note: the source uses the un-floored true division
s / satellitesPerPlane here, not the integer plane index. -/
def walkerRAAN (numberSatellites numberPlanes s : ℕ) : ℚ :=
  let satellitesPerPlane := (numberSatellites + numberPlanes - 1) / numberPlanes
  (s : ℚ) / (satellitesPerPlane : ℚ) * 360 / (numberPlanes : ℚ)

/-- The true anomaly assigned to satellite s (space.py lines 330-331). -/
def walkerTrueAnomaly (numberSatellites numberPlanes : ℕ)
    (relativeSpacing : ℚ) (s : ℕ) : ℚ :=
  let satellitesPerPlane := (numberSatellites + numberPlanes - 1) / numberPlanes
  (((s % satellitesPerPlane) * numberPlanes : ℕ) +
      relativeSpacing * (walkerPlane numberSatellites numberPlanes s : ℕ)) *
    360 / ((satellitesPerPlane * numberPlanes : ℕ) : ℚ)

/-- Constellation.generate_delta_orbits (space.py lines 316-335): one
Keplerian orbit per satellite index.  The loop body dereferences
self.orbit (AttributeError when None or a list), divides by
numberPlanes (ZeroDivisionError when 0), and multiplies relativeSpacing
by the plane index (TypeError when not a number); with zero satellites
the loop body never runs and no error is raised. -/
def Constellation.generate_delta_orbits (c : Constellation) :
    Except PyErr (List Orbit) :=
  match c.numberSatellites.scalar? with
  | none => .error .typeErr
  | some n =>
    if n = 0 then .ok []
    else
      match c.numberPlanes.scalar? with
      | none => .error .typeErr
      | some p =>
        if p = 0 then .error .zeroDiv
        else
          match c.orbit with
          | .one base =>
            match c.relativeSpacing.scalar?, base.altitude.scalar? with
            | some rs, some alt =>
              .ok ((List.range n).map fun s =>
                Orbit.init (some .KEPLERIAN) (.scalar none) base.inclination
                  (some (Orbit.get_semimajor_axis alt)) base.eccentricity
                  base.periapsisArgument
                  (some (walkerRAAN n p s))
                  (some (walkerTrueAnomaly n p rs s))
                  none none none)
            | _, _ => .error .typeErr
          | _ => .error .attrErr

/-- itertools.combinations in its emission order (lexicographic by input
index). -/
def combos : ℕ → List α → List (List α)
  | 0, _ => [[]]
  | _ + 1, [] => []
  | r + 1, x :: xs => (combos r xs).map (x :: ·) ++ combos (r + 1) xs

/-- itertools.combinations_with_replacement in its emission order. -/
def cwr : List α → ℕ → List (List α)
  | _, 0 => [[]]
  | [], _ + 1 => []
  | x :: xs, r + 1 => (cwr (x :: xs) r).map (x :: ·) ++ cwr xs (r + 1)
termination_by l r => (l.length, r)

/-- The clone-then-assign loop of generate_constellations (space.py
lines 344-346): numberSatellites deep copies of the template, the first
len(orbits) of which receive the synthesized orbits positionally
(IndexError when there are more orbits than clones). -/
def cloneAssign (template : Satellite) (n : ℕ) (orbits : List Orbit) :
    Except PyErr (List Satellite) :=
  if n < orbits.length then .error .indexErr
  else
    .ok ((List.range n).map fun i =>
      match orbits[i]? with
      | some o => { template with orbit := some o }
      | none => template)

/-- The DELTA_HOMOGENOUS inner loop over template satellites (space.py
lines 343-356), for one iterated constellation cc of self. -/
def genDeltaHomSats (c cc : Constellation) :
    List Satellite → Except PyErr (List Constellation)
  | [] => .ok []
  | s :: ss =>
    match cc.numberSatellites.scalar? with
    | none => .error .typeErr
    | some n =>
      match c.generate_delta_orbits with
      | .error e => .error e
      | .ok orbits =>
        match cloneAssign s n orbits with
        | .error e => .error e
        | .ok members =>
          match genDeltaHomSats c cc ss with
          | .error e => .error e
          | .ok rest =>
            .ok (Constellation.init cc.constellationType cc.numberSatellites
              cc.numberPlanes cc.relativeSpacing (.scalar none) cc.orbit
              (some members) none :: rest)

/-- The DELTA_HOMOGENOUS outer loop over iterated constellations
(space.py lines 340-357). -/
def genDeltaHom (c : Constellation) (satellites : List Satellite) :
    List Constellation → Except PyErr (List Constellation)
  | [] => .ok []
  | cc :: ccs =>
    match genDeltaHomSats c cc satellites with
    | .error e => .error e
    | .ok nets =>
      match genDeltaHom c satellites ccs with
      | .error e => .error e
      | .ok rest => .ok (nets ++ rest)

/-- The DELTA_HETEROGENEOUS branch (space.py lines 358-375).  Its loop
body ends in constellations.append called with keyword arguments, a
TypeError, so any combination at all fails; earlier the body can fail in
generate_delta_orbits or in the positional orbit assignment. -/
def genDeltaHet (c : Constellation) (satellites : List Satellite) :
    List Constellation → Except PyErr (List Constellation)
  | [] => .ok []
  | cc :: ccs =>
    match cc.numberSatellites.scalar? with
    | none => .error .typeErr
    | some n =>
      match cwr satellites n with
      | [] => genDeltaHet c satellites ccs
      | combo :: _ =>
        match c.generate_delta_orbits with
        | .error e => .error e
        | .ok orbits =>
          if combo.length < orbits.length then .error .indexErr
          else .error .typeErr

/-- Constellation.generate_constellations (space.py lines 337-377):
dispatch on constellationType; any type without a generator
implementation raises NotImplementedError. -/
def Constellation.generate_constellations (c : Constellation)
    (satellites : List Satellite) : Except PyErr (List Constellation) :=
  match c.constellationType with
  | some .DELTA_HOMOGENOUS => genDeltaHom c satellites c.iterate
  | some .DELTA_HETEROGENEOUS => genDeltaHet c satellites c.iterate
  | _ => .error .notImplemented

/-- An agency (agency.py Agency); agencyType is stored already parsed
(AgencyType.get of a member or string). -/
structure Agency where
  name : Option String
  acronym : Option String
  agencyType : Option AgencyType
  entityId : Option String
  deriving DecidableEq, Repr

/-- Agency.__init__ (agency.py lines 39-50). -/
def Agency.init (agencyType : Option AgencyType) (name acronym : Option String)
    (entityId : Option String) : Agency :=
  { name := name
    acronym := if truthyStr acronym then acronym else name
    agencyType := agencyType
    entityId := entityId }

/-- A ground station (ground.py GroundStation), restricted to the fields
the generator claims read. -/
structure GroundStation where
  name : Option String
  acronym : Option String
  agency : Option Agency
  latitude : Option ℚ
  longitude : Option ℚ
  elevation : Option ℚ
  entityId : Option String
  deriving DecidableEq, Repr

/-- GroundStation.__init__ (ground.py lines 62-73). -/
def GroundStation.init (name acronym : Option String) (agency : Option Agency)
    (latitude longitude elevation : Option ℚ) (entityId : Option String) :
    GroundStation :=
  { name := name
    acronym := if truthyStr acronym then acronym else name
    agency := agency
    latitude := latitude
    longitude := longitude
    elevation := elevation
    entityId := entityId }

/-- A ground network (ground.py GroundNetwork). -/
structure GroundNetwork where
  name : Option String
  acronym : Option String
  agency : Option Agency
  numberStations : RVal ℕ
  groundStations : Option (List GroundStation)
  entityId : Option String
  deriving DecidableEq, Repr

/-- GroundNetwork.__init__ (ground.py lines 100-109). -/
def GroundNetwork.init (name acronym : Option String) (agency : Option Agency)
    (numberStations : RVal ℕ) (groundStations : Option (List GroundStation))
    (entityId : Option String) : GroundNetwork :=
  { name := name
    acronym := if truthyStr acronym then acronym else name
    agency := agency
    numberStations := numberStations
    groundStations := groundStations
    entityId := entityId }

/-- GroundNetwork.__iter__ (ground.py lines 134-155): with ground
stations already bound the network is its own singleton, otherwise one
rebuilt network per numberStations candidate. -/
def GroundNetwork.iterate (gn : GroundNetwork) : List GroundNetwork :=
  if gn.groundStations ≠ none then [gn]
  else
    gn.numberStations.iter.map fun numberStations =>
      GroundNetwork.init gn.name gn.acronym gn.agency (.scalar numberStations)
        none none

/-- The station validity test of generate_networks (ground.py lines
117-119): an absent network agency admits every station; otherwise the
station must carry an agency whose type is the network agency's type. -/
def stationMatch (netAgency : Option Agency) (station : GroundStation) : Bool :=
  match netAgency with
  | none => true
  | some na =>
    match station.agency with
    | none => false
    | some sa => sa.agencyType = na.agencyType

/-- The loop of GroundNetwork.generate_networks over iterated network
configurations (ground.py lines 115-131): per configuration, one new
network per combination of numberStations valid stations
(combinations with a non-int size raise TypeError). -/
def genNetworks (pool : List GroundStation) :
    List GroundNetwork → Except PyErr (List GroundNetwork)
  | [] => .ok []
  | cfg :: cfgs =>
    match cfg.numberStations.scalar? with
    | none => .error .typeErr
    | some r =>
      match genNetworks pool cfgs with
      | .error e => .error e
      | .ok rest =>
        .ok (((combos r (pool.filter (stationMatch cfg.agency))).map
          fun sel => GroundNetwork.init cfg.name cfg.acronym cfg.agency
            cfg.numberStations (some sel) none) ++ rest)

/-- GroundNetwork.generate_networks (ground.py lines 111-132). -/
def GroundNetwork.generate_networks (gn : GroundNetwork)
    (groundStations : List GroundStation) : Except PyErr (List GroundNetwork) :=
  genNetworks groundStations gn.iterate

/-- An architecture (mission.py Architecture).  As built by
generate_architectures, the two fields receive the full per-configuration
output lists of the two generators (the Cartesian product is taken over
lists of lists), so they are modelled as lists. -/
structure Architecture where
  constellation : List Constellation
  groundNetwork : List GroundNetwork
  entityId : Option String
  deriving DecidableEq, Repr

/-- A design space (mission.py DesignSpace), restricted to the fields
generate_architectures reads (launchers are never consulted). -/
structure DesignSpace where
  constellations : List Constellation
  satellites : List Satellite
  groundNetworks : List GroundNetwork
  groundStations : List GroundStation
  deriving DecidableEq, Repr

/-- Error-propagating elementwise map (a Python list comprehension whose
body may raise). -/
def exceptMap (f : α → Except PyErr β) : List α → Except PyErr (List β)
  | [] => .ok []
  | a :: as_ =>
    match f a with
    | .error e => .error e
    | .ok b =>
      match exceptMap f as_ with
      | .error e => .error e
      | .ok bs => .ok (b :: bs)

/-- The elements of set().union over the per-entry constellation
iterations (mission.py lines 170-171).  The iterated entities are
freshly constructed with no identifier, so they hash and compare by
identity and the union retains every element; this list carries them in
insertion order, but CPython specifies no iteration order for such a
set, so any permutation of it is an admissible iteration order. -/
def DesignSpace.mergedConstellations (ds : DesignSpace) : List Constellation :=
  (ds.constellations.map Constellation.iterate).flatten

/-- The elements of set().union over the per-entry ground-network
iterations (mission.py lines 173-174); any permutation of this list is
an admissible iteration order. -/
def DesignSpace.mergedGroundNetworks (ds : DesignSpace) : List GroundNetwork :=
  (ds.groundNetworks.map GroundNetwork.iterate).flatten

/-- DesignSpace.generate_architectures (mission.py lines 167-186),
parametrized by the iteration orders the two set unions happen to
produce (CPython guarantees none for these identity-hashed fresh
entities; theorems quantify over every permutation of the merged
entries).  Given the orders, the architecture list is the Cartesian
product, constellation axis outer, of the two lists of
per-configuration generator outputs. -/
def DesignSpace.generate_architectures (ds : DesignSpace)
    (constellationsIter : List Constellation)
    (groundNetworksIter : List GroundNetwork) :
    Except PyErr (List Architecture) :=
  match exceptMap (fun i => i.generate_constellations ds.satellites)
      constellationsIter with
  | .error e => .error e
  | .ok consLists =>
    match exceptMap (fun i => i.generate_networks ds.groundStations)
        groundNetworksIter with
    | .error e => .error e
    | .ok netLists =>
      .ok ((consLists.map fun cl =>
        netLists.map fun nl =>
          Architecture.mk cl nl none).flatten)


/-- A node of the generic JSON-like document tree produced and consumed
by the entity codec (util.py to_dict / from_dict). -/
inductive Doc where
  | null
  | num (q : ℚ)
  | str (s : String)
  | bool (b : Bool)
  | list (l : List Doc)
  | obj (l : List (String × Doc))

mutual

/-- Whether a document node contains a null marker anywhere. -/
def Doc.hasNull : Doc → Bool
  | .null => true
  | .list l => Doc.hasNullList l
  | .obj l => Doc.hasNullObj l
  | _ => false

/-- hasNull over an array. -/
def Doc.hasNullList : List Doc → Bool
  | [] => false
  | d :: ds => Doc.hasNull d || Doc.hasNullList ds

/-- hasNull over an object's entries. -/
def Doc.hasNullObj : List (String × Doc) → Bool
  | [] => false
  | p :: ps => Doc.hasNull p.2 || Doc.hasNullObj ps

end

/-- Python truthiness of a document value (used by the reserved-key
renaming in Entity.to_dict). -/
def Doc.truthy : Doc → Bool
  | .null => false
  | .num q => q ≠ 0
  | .str s => s ≠ ""
  | .bool b => b
  | .list l => ¬ l.isEmpty
  | .obj l => ¬ l.isEmpty

/-- The string payload of a document node, when it is a string. -/
def Doc.str? : Doc → Option String
  | .str s => some s
  | _ => none

/-- The numeric payload of a document node, when it is a number. -/
def Doc.num? : Doc → Option ℚ
  | .num q => some q
  | _ => none

/-- A Python int read back from a number node (JSON integers stay
integral). -/
def Doc.int? (d : Doc) : Option ℤ :=
  match d.num? with
  | some q => if q.den = 1 then some q.num else none
  | none => none

/-- dict.get on an object's entries (keys are unique by construction). -/
def lookupD (k : String) : List (String × Doc) → Option Doc
  | [] => none
  | p :: ps => if p.1 = k then some p.2 else lookupD k ps

/-- An optional string field: omitted entirely when None (the null
removal of recursive_normalize in util.py to_dict). -/
def optStr (k : String) : Option String → List (String × Doc)
  | some s => [(k, .str s)]
  | none => []

/-- An optional numeric field, omitted when None. -/
def optNum (k : String) : Option ℚ → List (String × Doc)
  | some q => [(k, .num q)]
  | none => []

/-- An optional integer field, omitted when None. -/
def optInt (k : String) : Option ℤ → List (String × Doc)
  | some n => [(k, .num (n : ℚ))]
  | none => []

/-- One reserved-key renaming step of Entity.to_dict: a truthy entry
under the raw key is popped and re-appended under the new key; a falsy
value is left under its raw key (the truthiness test of util.py lines
59-60). -/
def renameKey (d : List (String × Doc)) (rawKey newKey : String) :
    List (String × Doc) :=
  match lookupD rawKey d with
  | some v =>
    if v.truthy then d.filter (fun p => ¬ p.1 = rawKey) ++ [(newKey, v)]
    else d
  | none => d

/-- The reserved-key renaming at the end of Entity.to_dict (util.py
lines 58-60): _id to @id, then _type to @type. -/
def Entity.finalize (d : List (String × Doc)) : List (String × Doc) :=
  renameKey (renameKey d "_id" "@id") "_type" "@type"

/-- The abstract base entity (util.py Entity): only the identifier and
the fixed type tag. -/
structure Entity where
  entityId : Option String
  deriving DecidableEq, Repr

/-- Entity.to_dict for a base entity (util.py lines 31-61). -/
def Entity.to_dict (e : Entity) : List (String × Doc) :=
  Entity.finalize (optStr "_id" e.entityId ++ [("_type", .str "Entity")])

/-- Entity.from_dict (util.py lines 89-92): only the @id key is read. -/
def Entity.from_dict (d : List (String × Doc)) : Entity :=
  ⟨(lookupD "@id" d).bind Doc.str?⟩

/-- Agency.to_dict: the instance dictionary in attribute-assignment
order (name, acronym, agencyType, then the base-class _id and _type),
None values removed, then the reserved-key renaming. -/
def Agency.to_dict (a : Agency) : List (String × Doc) :=
  Entity.finalize
    (optStr "name" a.name ++ optStr "acronym" a.acronym ++
      (match a.agencyType with
        | some t => [("agencyType", Doc.str t.value)]
        | none => []) ++
      optStr "_id" a.entityId ++ [("_type", .str "Agency")])

/-- Agency.from_dict (agency.py lines 52-60): reads the named keys and
rebuilds through the constructor, whose AgencyType.get call parses the
agency type string case-insensitively. -/
def Agency.from_dict (d : List (String × Doc)) : Agency :=
  Agency.init
    (((lookupD "agencyType" d).bind Doc.str?).bind fun s =>
      parseAgencyType (upStr s))
    ((lookupD "name" d).bind Doc.str?)
    ((lookupD "acronym" d).bind Doc.str?)
    ((lookupD "@id" d).bind Doc.str?)

/-- QuantitativeRange.to_dict: minValue, maxValue, numberSteps,
stepSize, _id, _type in assignment order, None values removed, reserved
keys renamed. -/
def QuantitativeRange.to_dict (r : QuantitativeRange) : List (String × Doc) :=
  Entity.finalize
    ([("minValue", Doc.num r.minValue), ("maxValue", Doc.num r.maxValue)] ++
      optInt "numberSteps" r.numberSteps ++ optNum "stepSize" r.stepSize ++
      optStr "_id" r.entityId ++ [("_type", .str "QuantitativeRange")])

/-- QuantitativeRange.from_dict (util.py lines 201-210).  The embedding
keeps numeric endpoints mandatory, so a document without them is outside
the model (none). -/
def QuantitativeRange.from_dict (d : List (String × Doc)) :
    Option QuantitativeRange :=
  match (lookupD "minValue" d).bind Doc.num?,
      (lookupD "maxValue" d).bind Doc.num? with
  | some mn, some mx =>
    some
      { minValue := mn
        maxValue := mx
        numberSteps := (lookupD "numberSteps" d).bind Doc.int?
        stepSize := (lookupD "stepSize" d).bind Doc.num?
        entityId := (lookupD "@id" d).bind Doc.str? }
  | _, _ => none

/-- GroundStation.to_dict: name, acronym, agency (a nested entity,
recursively encoded), latitude, longitude, elevation, _id, _type in
assignment order (the commBand field is outside this embedding), None
values removed, reserved keys renamed. -/
def GroundStation.to_dict (gs : GroundStation) : List (String × Doc) :=
  Entity.finalize
    (optStr "name" gs.name ++ optStr "acronym" gs.acronym ++
      (match gs.agency with
        | some a => [("agency", Doc.obj a.to_dict)]
        | none => []) ++
      optNum "latitude" gs.latitude ++ optNum "longitude" gs.longitude ++
      optNum "elevation" gs.elevation ++
      optStr "_id" gs.entityId ++ [("_type", .str "GroundStation")])

/-- GroundStation.from_dict (ground.py lines 75-87): nested agency
decoded through Agency.from_dict (Agency.from_json dispatches an object
there), scalar coordinates read back as numbers. -/
def GroundStation.from_dict (d : List (String × Doc)) : GroundStation :=
  GroundStation.init
    ((lookupD "name" d).bind Doc.str?)
    ((lookupD "acronym" d).bind Doc.str?)
    ((lookupD "agency" d).bind fun v =>
      match v with
      | .obj l => some (Agency.from_dict l)
      | _ => none)
    ((lookupD "latitude" d).bind Doc.num?)
    ((lookupD "longitude" d).bind Doc.num?)
    ((lookupD "elevation" d).bind Doc.num?)
    ((lookupD "@id" d).bind Doc.str?)

/-- The sun-synchronous 705 km orbit of the demo design space
(example.py): the constructor derives the symbolic SSO inclination and
forces zero eccentricity. -/
def landsatOrbit : Orbit :=
  Orbit.init (some .SUN_SYNCHRONOUS) (.scalar (some 705)) (.scalar none)
    none none none none none none none none

/-- The single template satellite of the demo design space. -/
def landsatSatellite : Satellite :=
  Satellite.init (some "Landsat 8") none 2750 43.2 1550 none none

/-- The demo constellation entry: DELTA_HOMOGENOUS, numberSatellites
and numberPlanes each ranging over 1 and 2, fixed sun-synchronous orbit
at 705 km. -/
def landsatConstellation : Constellation :=
  Constellation.init (some .DELTA_HOMOGENOUS) (.many [1, 2]) (.many [1, 2])
    (.scalar none) (.scalar none) (.one landsatOrbit) none none

/-- The single ground station of the demo design space, with
unconstrained (absent) agency. -/
def landsatStation : GroundStation :=
  GroundStation.init none none none (some 40.5974791834978)
    (some (-104.83875274658203)) (some 1570) none

/-- The single ground network of the demo design space, numberStations
fixed to 1. -/
def landsatNetwork : GroundNetwork :=
  GroundNetwork.init none none none (.scalar (some 1)) none none

/-- The demo design space of example.py (the end-to-end scenario of the
specification). -/
def landsatDesignSpace : DesignSpace :=
  { constellations := [landsatConstellation]
    satellites := [landsatSatellite]
    groundNetworks := [landsatNetwork]
    groundStations := [landsatStation] }

/-- A plain 500 km base orbit used by the concrete Walker-delta
examples. -/
def walkerBaseOrbit : Orbit :=
  Orbit.init none (.scalar (some 500)) (.scalar (some (.num 98)))
    none none none none none none none none

/-- The concrete 4-satellite 2-plane relativeSpacing-0 constellation of
the generate_delta_orbits example. -/
def walker420 : Constellation :=
  Constellation.init (some .DELTA_HOMOGENOUS) (.scalar (some 4))
    (.scalar (some 2)) (.scalar (some 0)) (.scalar none)
    (.one walkerBaseOrbit) none none

/-- The concrete (iterated) demo constellation with the given satellite
count, plane count, and relative spacing. -/
def landsatIterated (n p : ℕ) (rs : ℚ) : Constellation :=
  Constellation.init (some .DELTA_HOMOGENOUS) (.scalar (some n))
    (.scalar (some p)) (.scalar (some rs)) (.scalar none)
    (.one landsatOrbit) none none

/-- The synthesized Keplerian orbit of demo member satellite s. -/
def landsatMemberOrbit (n p : ℕ) (rs : ℚ) (s : ℕ) : Orbit :=
  Orbit.init (some .KEPLERIAN) (.scalar none) (.scalar (some (.ssoOf 705)))
    (some (Orbit.get_semimajor_axis 705)) (some 0) none
    (some (walkerRAAN n p s)) (some (walkerTrueAnomaly n p rs s))
    none none none

/-- The generated demo constellation: the concrete configuration with
its member satellites, clones of the template each carrying one
synthesized orbit. -/
def landsatGenerated (n p : ℕ) (rs : ℚ) : Constellation :=
  Constellation.init (some .DELTA_HOMOGENOUS) (.scalar (some n))
    (.scalar (some p)) (.scalar (some rs)) (.scalar none)
    (.one landsatOrbit)
    (some ((List.range n).map fun s =>
      { landsatSatellite with orbit := some (landsatMemberOrbit n p rs s) }))
    none

/-- The generated demo ground network: the single station bound to the
numberStations-1 configuration. -/
def landsatGeneratedNetwork : GroundNetwork :=
  GroundNetwork.init none none none (.scalar (some 1))
    (some [landsatStation]) none

/-- The generator output for one merged demo-scenario constellation
configuration: the single generated constellation carrying its scalar
parameters (used to express the demo output as a function of the
set-iteration order). -/
def landsatGenOf (c : Constellation) : List Constellation :=
  match c.numberSatellites.scalar?, c.numberPlanes.scalar?,
      c.relativeSpacing.scalar? with
  | some n, some p, some rs => [landsatGenerated n p rs]
  | _, _, _ => []

/-- The combination-filter predicate in the specification's words: keep
a combination when numberPlanes does not exceed numberSatellites and
relativeSpacing is below numberPlanes, a check with an undefined operand
passing. -/
def specKeep (numberSatellites numberPlanes : Option ℕ)
    (relativeSpacing : Option ℚ) : Prop :=
  (∀ p ∈ numberPlanes, ∀ n ∈ numberSatellites, p ≤ n) ∧
  (∀ rs ∈ relativeSpacing, ∀ p ∈ numberPlanes, rs < (p : ℚ))

/-- The specification predicate is decidable. -/
instance (n p : Option ℕ) (rs : Option ℚ) : Decidable (specKeep n p rs) := by
  unfold specKeep; infer_instance

/-- A DELTA_HOMOGENOUS constellation whose satellites list is already
bound, with numberPlanes 2 exceeding numberSatellites 1. -/
def boundWalker : Constellation :=
  Constellation.init (some .DELTA_HOMOGENOUS) (.scalar (some 1))
    (.scalar (some 2)) (.scalar none) (.scalar none) (.one walkerBaseOrbit)
    (some [landsatSatellite]) none

/-- An unbound DELTA_HOMOGENOUS configuration in which every candidate
numberPlanes value (3) exceeds every candidate numberSatellites value
(1 and 2). -/
def emptyDeltaConfig : Constellation :=
  Constellation.init (some .DELTA_HOMOGENOUS) (.many [1, 2]) (.many [3])
    (.scalar none) (.scalar none) (.one walkerBaseOrbit) none none

/-- A government agency used by the ground-network witness. -/
def govAgency : Agency :=
  Agency.init (some .GOVERNMENT) (some "NASA") none none

/-- A ground network constrained to government stations, wanting two of
them. -/
def govNetwork : GroundNetwork :=
  GroundNetwork.init (some "GovNet") none (some govAgency)
    (.scalar (some 2)) none none

/-- Three candidate stations: two government, one without an agency. -/
def witnessPool : List GroundStation :=
  [GroundStation.init (some "gsA") none (some govAgency) (some 10) (some 20)
      (some 100) none,
    GroundStation.init (some "gsB") none none (some 30) (some 40)
      (some 200) none,
    GroundStation.init (some "gsC") none (some govAgency) (some 50) (some 60)
      (some 300) none]

/-- Decidable equality of modelled Python outcomes. -/
instance {ε α : Type} [DecidableEq ε] [DecidableEq α] :
    DecidableEq (Except ε α) := fun x y =>
  match x, y with
  | .error e, .error f =>
    decidable_of_iff (e = f) ⟨by rintro rfl; rfl, by intro h; cases h; rfl⟩
  | .ok a, .ok b =>
    decidable_of_iff (a = b) ⟨by rintro rfl; rfl, by intro h; cases h; rfl⟩
  | .error _, .ok _ => isFalse (by intro h; cases h)
  | .ok _, .error _ => isFalse (by intro h; cases h)

/-! Theorems. -/

/-- A Python list comprehension whose body succeeds pointwise is a map. -/
theorem exceptMap_ok_map {α β : Type} (f : α → Except PyErr β) (g : α → β) :
    ∀ l : List α, (∀ a ∈ l, f a = .ok (g a)) → exceptMap f l = .ok (l.map g)
  | [], _ => rfl
  | a :: as_, h => by
    rw [exceptMap, h a (List.mem_cons_self a as_),
      exceptMap_ok_map f g as_ fun x hx => h x (List.mem_cons_of_mem a hx)]
    rfl

/-- Flattening singleton blocks is mapping. -/
theorem flatten_map_singleton {α β : Type} (F : α → β) :
    ∀ l : List α, (l.map fun x => [F x]).flatten = l.map F
  | [] => rfl
  | x :: xs => by
    rw [List.map_cons, List.flatten_cons, flatten_map_singleton F xs]
    rfl

/-- The merged demo constellation entries, in insertion order: the three
combinations that pass the plane bound. -/
theorem landsat_mergedConstellations :
    landsatDesignSpace.mergedConstellations =
      [landsatIterated 1 1 0, landsatIterated 2 1 0, landsatIterated 2 2 1] := by
  simp +decide [DesignSpace.mergedConstellations, landsatDesignSpace,
    landsatConstellation, landsatOrbit, landsatIterated, Constellation.iterate,
    Constellation.init, Orbit.iterate, Orbit.init, RVal.iter, OrbitField.iter,
    OrbitField.ofCand, constellationFilter, spacingCheck, planeCountCheck]

/-- The merged demo ground-network entries: the single configuration,
which the constructor rebuilds to the network itself. -/
theorem landsat_mergedGroundNetworks :
    landsatDesignSpace.mergedGroundNetworks = [landsatNetwork] := by
  simp +decide [DesignSpace.mergedGroundNetworks, landsatDesignSpace,
    landsatNetwork, GroundNetwork.iterate, GroundNetwork.init, RVal.iter,
    truthyStr]

/-- Each merged demo configuration generates exactly its single
constellation. -/
theorem landsat_generate_merged : ∀ c ∈ [landsatIterated 1 1 0,
      landsatIterated 2 1 0, landsatIterated 2 2 1],
    Constellation.generate_constellations c landsatDesignSpace.satellites =
      .ok (landsatGenOf c) := by
  intro c hcm
  simp only [List.mem_cons, List.not_mem_nil, or_false] at hcm
  rcases hcm with rfl | rfl | rfl <;>
    simp +decide [landsatDesignSpace, landsatIterated, landsatOrbit,
      landsatSatellite, landsatGenOf, landsatGenerated, landsatMemberOrbit,
      Constellation.generate_constellations, Constellation.iterate,
      Constellation.init, Orbit.iterate, Orbit.init, RVal.iter, RVal.scalar?,
      OrbitField.iter, OrbitField.ofCand, constellationFilter, spacingCheck,
      planeCountCheck, Constellation.generate_delta_orbits, genDeltaHom,
      genDeltaHomSats, cloneAssign, Satellite.init, truthyStr, walkerRAAN,
      walkerTrueAnomaly, walkerPlane, Orbit.get_semimajor_axis,
      List.range_succ]

/-- The demo network side of generate_architectures evaluates to the
single generated network. -/
theorem landsat_networks_eval :
    exceptMap (fun i => GroundNetwork.generate_networks i
        landsatDesignSpace.groundStations) [landsatNetwork] =
      .ok [[landsatGeneratedNetwork]] := by
  simp +decide [exceptMap, landsatDesignSpace, landsatNetwork, landsatStation,
    landsatGeneratedNetwork, GroundNetwork.generate_networks,
    GroundNetwork.iterate, GroundNetwork.init, GroundStation.init, genNetworks,
    RVal.iter, RVal.scalar?, stationMatch, combos, truthyStr]

/-- For every admissible constellation iteration order, the demo output
is the constellation-axis-outer product with the single network. -/
theorem landsat_generate_architectures_eval (consOrder : List Constellation)
    (hc : consOrder.Perm landsatDesignSpace.mergedConstellations) :
    landsatDesignSpace.generate_architectures consOrder [landsatNetwork] =
      .ok (consOrder.map fun c =>
        Architecture.mk (landsatGenOf c) [landsatGeneratedNetwork] none) := by
  have hgen : ∀ c ∈ consOrder,
      Constellation.generate_constellations c landsatDesignSpace.satellites =
        .ok (landsatGenOf c) := by
    intro c hcm
    refine landsat_generate_merged c ?_
    have := hc.subset hcm
    rwa [landsat_mergedConstellations] at this
  have h1 := exceptMap_ok_map
    (fun i => Constellation.generate_constellations i
      landsatDesignSpace.satellites) landsatGenOf consOrder hgen
  simp only [DesignSpace.generate_architectures, h1, landsat_networks_eval,
    List.map_cons, List.map_nil]
  rw [flatten_map_singleton
    (fun cl => Architecture.mk cl [landsatGeneratedNetwork] none)
    (consOrder.map landsatGenOf), List.map_map]
  rfl

/-- C1 counterexample: the reversed iteration order of the merged
constellation entries is equally admissible — CPython guarantees no
iteration order for the set().union of mission.py lines 170-174 over
these identity-hashed, freshly constructed entities — yet under it
generate_architectures emits the three architectures in reversed order,
so the deterministic order the claim asserts (constellation
combinations in production order) is not determined by the program. -/
theorem generate_architectures_order_not_determined :
    ([landsatIterated 2 2 1, landsatIterated 2 1 0, landsatIterated 1 1 0] :
        List Constellation).Perm landsatDesignSpace.mergedConstellations ∧
    ([landsatNetwork] : List GroundNetwork).Perm
      landsatDesignSpace.mergedGroundNetworks ∧
    landsatDesignSpace.generate_architectures
        [landsatIterated 2 2 1, landsatIterated 2 1 0, landsatIterated 1 1 0]
        [landsatNetwork] =
      .ok [⟨[landsatGenerated 2 2 1], [landsatGeneratedNetwork], none⟩,
        ⟨[landsatGenerated 2 1 0], [landsatGeneratedNetwork], none⟩,
        ⟨[landsatGenerated 1 1 0], [landsatGeneratedNetwork], none⟩] ∧
    [(⟨[landsatGenerated 2 2 1], [landsatGeneratedNetwork], none⟩ :
        Architecture),
      ⟨[landsatGenerated 2 1 0], [landsatGeneratedNetwork], none⟩,
      ⟨[landsatGenerated 1 1 0], [landsatGeneratedNetwork], none⟩] ≠
    [⟨[landsatGenerated 1 1 0], [landsatGeneratedNetwork], none⟩,
      ⟨[landsatGenerated 2 1 0], [landsatGeneratedNetwork], none⟩,
      ⟨[landsatGenerated 2 2 1], [landsatGeneratedNetwork], none⟩] := by
  have hperm : ([landsatIterated 2 2 1, landsatIterated 2 1 0,
      landsatIterated 1 1 0] : List Constellation).Perm
      landsatDesignSpace.mergedConstellations := by
    rw [landsat_mergedConstellations]
    exact List.reverse_perm
      [landsatIterated 1 1 0, landsatIterated 2 1 0, landsatIterated 2 2 1]
  refine ⟨hperm, ?_, ?_, ?_⟩
  · rw [landsat_mergedGroundNetworks]
  · rw [landsat_generate_architectures_eval _ hperm]
    simp +decide [landsatGenOf, landsatIterated, Constellation.init,
      RVal.scalar?]
  · intro h
    have h1 := Option.some.inj (congrArg (fun l => l.head?) h)
    have h2 := congrArg (fun a => a.constellation) h1
    have h3 := Option.some.inj (congrArg (fun l => l.head?) h2)
    have h4 := congrArg (fun c => c.numberSatellites) h3
    simp [landsatGenerated, Constellation.init] at h4

/-- C1 amended: for the demo design space (one DELTA_HOMOGENOUS
constellation with numberSatellites and numberPlanes ranging over 1 and
2, a fixed sun-synchronous orbit at 705 km, one template satellite, one
ground network with numberStations 1, one ground station with
unconstrained agency) and every admissible iteration order of the two
set unions (any permutation of the merged entries), the generator
yields exactly 3 Architecture instances — a permutation of the three
pairings of the concrete constellations (1,1), (2,1), (2,2) with the
single concrete ground network — and, for whatever orders the sets
produce, the product order is constellation axis outer, ground-network
axis inner.  The original claim's cross-run deterministic order is not
guaranteed by the program (see the counterexample). -/
theorem generate_architectures_demo_perm
    (consOrder : List Constellation) (netOrder : List GroundNetwork)
    (hc : consOrder.Perm landsatDesignSpace.mergedConstellations)
    (hn : netOrder.Perm landsatDesignSpace.mergedGroundNetworks) :
    ∃ archs, landsatDesignSpace.generate_architectures consOrder netOrder =
        .ok archs ∧
      archs.length = 3 ∧
      archs.Perm
        [⟨[landsatGenerated 1 1 0], [landsatGeneratedNetwork], none⟩,
          ⟨[landsatGenerated 2 1 0], [landsatGeneratedNetwork], none⟩,
          ⟨[landsatGenerated 2 2 1], [landsatGeneratedNetwork], none⟩] ∧
      archs = consOrder.map fun c =>
        Architecture.mk (landsatGenOf c) [landsatGeneratedNetwork] none := by
  have hnet : netOrder = [landsatNetwork] := by
    rw [landsat_mergedGroundNetworks] at hn
    exact List.perm_singleton.mp hn
  subst hnet
  refine ⟨_, landsat_generate_architectures_eval consOrder hc, ?_, ?_, rfl⟩
  · rw [List.length_map, hc.length_eq, landsat_mergedConstellations]
    rfl
  · have hm := hc.map fun c =>
      Architecture.mk (landsatGenOf c) [landsatGeneratedNetwork] none
    rw [landsat_mergedConstellations] at hm
    refine hm.trans ?_
    have he : [landsatIterated 1 1 0, landsatIterated 2 1 0,
        landsatIterated 2 2 1].map (fun c =>
          Architecture.mk (landsatGenOf c) [landsatGeneratedNetwork] none) =
        [⟨[landsatGenerated 1 1 0], [landsatGeneratedNetwork], none⟩,
          ⟨[landsatGenerated 2 1 0], [landsatGeneratedNetwork], none⟩,
          ⟨[landsatGenerated 2 2 1], [landsatGeneratedNetwork], none⟩] := by
      simp +decide [landsatGenOf, landsatIterated, Constellation.init,
        RVal.scalar?]
    rw [he]

/-- C1 witness: the amended statement instantiated at the insertion
order of the merged entries. -/
theorem generate_architectures_demo_perm_witness :
    ∃ archs, landsatDesignSpace.generate_architectures
        landsatDesignSpace.mergedConstellations
        landsatDesignSpace.mergedGroundNetworks = .ok archs ∧
      archs.length = 3 ∧
      archs.Perm
        [⟨[landsatGenerated 1 1 0], [landsatGeneratedNetwork], none⟩,
          ⟨[landsatGenerated 2 1 0], [landsatGeneratedNetwork], none⟩,
          ⟨[landsatGenerated 2 2 1], [landsatGeneratedNetwork], none⟩] ∧
      archs = landsatDesignSpace.mergedConstellations.map fun c =>
        Architecture.mk (landsatGenOf c) [landsatGeneratedNetwork] none :=
  generate_architectures_demo_perm landsatDesignSpace.mergedConstellations
    landsatDesignSpace.mergedGroundNetworks (List.Perm.refl _)
    (List.Perm.refl _)

/-- C2 counterexample: for numberSatellites 4, numberPlanes 2,
relativeSpacing 0, the code's right ascensions are not the claimed
plane-wise values (0, 0, 180, 180) and its true anomalies are not the
claimed (0, 90, 180, 270): the source computes the RAAN from the
un-floored ratio s / satellitesPerPlane, so each satellite lands in its
own plane orientation, and the true anomalies follow the in-plane
formula. -/
theorem walker420_claimed_values_refuted :
    walker420.generate_delta_orbits.map
        (fun l => l.map Orbit.rightAscensionAscendingNode) =
      .ok [some 0, some 90, some 180, some 270] ∧
    [some (0 : ℚ), some 90, some 180, some 270] ≠
      [some 0, some 0, some 180, some 180] ∧
    walker420.generate_delta_orbits.map (fun l => l.map Orbit.trueAnomaly) =
      .ok [some 0, some 180, some 0, some 180] ∧
    [some (0 : ℚ), some 180, some 0, some 180] ≠
      [some 0, some 90, some 180, some 270] := by
  refine ⟨?_, by norm_num, ?_, by norm_num⟩ <;>
    (simp +decide [walker420, walkerBaseOrbit,
      Constellation.generate_delta_orbits, Constellation.init, Orbit.init,
      RVal.scalar?, walkerRAAN, walkerTrueAnomaly, walkerPlane,
      Orbit.get_semimajor_axis, List.range_succ, Except.map] <;> norm_num)

/-- C2 amended: for numberSatellites 4, numberPlanes 2, relativeSpacing
0, the plane assignment is (0, 0, 1, 1); the produced right ascensions
are (s / satellitesPerPlane) * 360 / numberPlanes, i.e.
(0, 90, 180, 270) degrees, and the produced true anomalies are
((s mod satellitesPerPlane) * P + F * plane(s)) * 360 /
(satellitesPerPlane * P), i.e. (0, 180, 0, 180) degrees, in satellite
order. -/
theorem walker420_delta_orbit_values :
    (List.range 4).map (walkerPlane 4 2) = [0, 0, 1, 1] ∧
    walker420.generate_delta_orbits.map
        (fun l => l.map Orbit.rightAscensionAscendingNode) =
      .ok ([0, 1, 2, 3].map fun s => some (walkerRAAN 4 2 s)) ∧
    ([0, 1, 2, 3].map fun s => some (walkerRAAN 4 2 s)) =
      [some 0, some 90, some 180, some 270] ∧
    walker420.generate_delta_orbits.map (fun l => l.map Orbit.trueAnomaly) =
      .ok ([0, 1, 2, 3].map fun s => some (walkerTrueAnomaly 4 2 0 s)) ∧
    ([0, 1, 2, 3].map fun s => some (walkerTrueAnomaly 4 2 0 s)) =
      [some 0, some 180, some 0, some 180] := by
  refine ⟨by simp +decide [walkerPlane, List.range_succ], ?_, ?_, ?_, ?_⟩ <;>
    (simp +decide [walker420, walkerBaseOrbit,
      Constellation.generate_delta_orbits, Constellation.init, Orbit.init,
      RVal.scalar?, walkerRAAN, walkerTrueAnomaly, walkerPlane,
      Orbit.get_semimajor_axis, List.range_succ, Except.map] <;> norm_num)

/-- C6: generate_constellations on a PRECESSING, AD_HOC, or TRAIN
constellation raises NotImplementedError, never returning an empty or
partial list. -/
theorem generate_constellations_unsupported (c : Constellation)
    (sats : List Satellite)
    (h : c.constellationType = some .PRECESSING ∨
      c.constellationType = some .AD_HOC ∨
      c.constellationType = some .TRAIN) :
    c.generate_constellations sats = .error .notImplemented := by
  rcases h with h | h | h <;>
    simp [Constellation.generate_constellations, h]

/-- C6 witness: a concrete PRECESSING constellation fails with the
unsupported-configuration error. -/
theorem generate_constellations_unsupported_witness :
    (Constellation.init (some .PRECESSING) (.scalar (some 1)) (.scalar none)
        (.scalar none) (.scalar none) .noneF none none).generate_constellations
        [] = .error .notImplemented :=
  generate_constellations_unsupported _ [] (Or.inl rfl)

/-- C7 counterexample: at altitude 0 the code's orbital period differs
from the claimed formula with the gravitational parameter
3.986004418e5; the source uses 3.98600440e5. -/
theorem get_orbital_period_claimed_mu_refuted :
    Orbit.get_orbital_period 0 ≠
      2 * Real.pi * Real.sqrt ((6378.14 + 0) ^ 3 / (3.986004418 * 10 ^ 5)) := by
  have hA : (0 : ℝ) < (6378.14 + 0) ^ 3 := by norm_num
  have hlt : ((6378.14 + 0 : ℝ)) ^ 3 / (3.986004418 * 10 ^ 5) <
      ((6378.14 + 0 : ℝ)) ^ 3 / (3.98600440 * 10 ^ 5) :=
    div_lt_div_of_pos_left hA (by norm_num) (by norm_num)
  have hs : Real.sqrt (((6378.14 + 0 : ℝ)) ^ 3 / (3.986004418 * 10 ^ 5)) <
      Real.sqrt (((6378.14 + 0 : ℝ)) ^ 3 / (3.98600440 * 10 ^ 5)) :=
    Real.sqrt_lt_sqrt (by positivity) hlt
  have hmul : 2 * Real.pi *
      Real.sqrt (((6378.14 + 0 : ℝ)) ^ 3 / (3.986004418 * 10 ^ 5)) <
      2 * Real.pi *
      Real.sqrt (((6378.14 + 0 : ℝ)) ^ 3 / (3.98600440 * 10 ^ 5)) := by
    have h2pi : (0 : ℝ) < 2 * Real.pi := by positivity
    exact mul_lt_mul_of_pos_left hs h2pi
  have : Orbit.get_orbital_period 0 =
      2 * Real.pi * Real.sqrt (((6378.14 + 0 : ℝ)) ^ 3 / (3.98600440 * 10 ^ 5)) := by
    simp only [Orbit.get_orbital_period, Orbit.get_semimajor_axisR]
  rw [this]
  exact ne_of_gt hmul

/-- C7 amended: the orbital period is 2 * pi * sqrt(sma^3 / mu) with
sma = Re + altitude, Re = 6378.14 km, and the source's gravitational
parameter mu = 3.98600440e5 km^3/s^2; the semi-major axis is
Re + altitude. -/
theorem get_orbital_period_formula :
    (∀ altitude : ℝ, Orbit.get_orbital_period altitude =
      2 * Real.pi *
        Real.sqrt ((Orbit.get_semimajor_axisR altitude) ^ 3 /
          (3.98600440 * 10 ^ 5))) ∧
    (∀ altitude : ℝ, Orbit.get_semimajor_axisR altitude = 6378.14 + altitude) ∧
    (∀ altitude : ℚ, Orbit.get_semimajor_axis altitude = 6378.14 + altitude) :=
  ⟨fun _ => rfl, fun _ => rfl, fun _ => rfl⟩

/-- C10: numberSteps 0 is falsy, so iteration falls through to the
stepSize rule, and with stepSize unset it yields exactly the (nonempty)
two-endpoint list; stepSize 0 is likewise treated as absent instead of
dividing by zero. -/
theorem qr_iterate_zero_truthiness :
    (∀ mn mx ss i, QuantitativeRange.iterate ⟨mn, mx, some 0, ss, i⟩ =
      QuantitativeRange.iterStep ⟨mn, mx, some 0, ss, i⟩) ∧
    (∀ mn mx ss i, QuantitativeRange.iterate ⟨mn, mx, some 0, ss, i⟩ =
      QuantitativeRange.iterate ⟨mn, mx, none, ss, i⟩) ∧
    (∀ mn mx i, QuantitativeRange.iterate ⟨mn, mx, some 0, none, i⟩ =
      .ok [mn, mx] ∧ [mn, mx] ≠ ([] : List ℚ)) ∧
    (∀ mn mx ns i, QuantitativeRange.iterate ⟨mn, mx, ns, some 0, i⟩ =
      QuantitativeRange.iterate ⟨mn, mx, ns, none, i⟩) := by
  refine ⟨fun mn mx ss i => by simp [QuantitativeRange.iterate],
    fun mn mx ss i => by
      cases ss <;> simp [QuantitativeRange.iterate, QuantitativeRange.iterStep],
    fun mn mx i => ⟨by simp [QuantitativeRange.iterate,
      QuantitativeRange.iterStep], by simp⟩,
    fun mn mx ns i => ?_⟩
  cases ns with
  | none => simp [QuantitativeRange.iterate, QuantitativeRange.iterStep]
  | some k =>
    by_cases hk : k = 0 <;>
      simp [QuantitativeRange.iterate, QuantitativeRange.iterStep, hk]

/-- C5 counterexample: a DELTA_HOMOGENOUS constellation whose
satellites list is already bound skips the combination filter (it
iterates as its own singleton), so with numberPlanes 2 exceeding
numberSatellites 1 — every candidate plane count exceeding every
candidate satellite count — generate_constellations still returns a
nonempty list. -/
theorem generate_constellations_bound_satellites_nonempty :
    boundWalker.numberPlanes.iter = [some 2] ∧
    boundWalker.numberSatellites.iter = [some 1] ∧ (1 : ℕ) < 2 ∧
    boundWalker.generate_constellations [landsatSatellite] ≠ .ok [] := by
  refine ⟨by simp +decide [boundWalker, Constellation.init, RVal.iter],
    by simp +decide [boundWalker, Constellation.init, RVal.iter],
    by norm_num, ?_⟩
  simp +decide [boundWalker, walkerBaseOrbit, landsatSatellite, Satellite.init,
    Constellation.generate_constellations, Constellation.init,
    Constellation.iterate, genDeltaHom, genDeltaHomSats, cloneAssign,
    Constellation.generate_delta_orbits, RVal.scalar?, Orbit.init,
    Orbit.get_semimajor_axis, walkerRAAN, walkerTrueAnomaly, walkerPlane,
    List.range_succ, truthyStr]

/-- C5 amended: the combination filter of constellation iteration keeps
exactly the combinations satisfying numberPlanes at most
numberSatellites and relativeSpacing below numberPlanes (an undefined
operand passes the corresponding check); for a constellation with
satellites unbound, iteration is exactly the so-filtered Cartesian
product rebuilt through the constructor; and every unbound delta-type
configuration in which every candidate numberPlanes value exceeds every
candidate numberSatellites value generates the empty sequence.  (The
original claim fails when the satellites list is already bound: then
iteration skips the filter.) -/
theorem constellation_iterate_filter_spec :
    (∀ n p rs, constellationFilter n p rs = true ↔ specKeep n p rs) ∧
    (∀ c : Constellation, c.satellites = none →
      c.iterate =
        (c.numberSatellites.iter.map fun n =>
          (c.numberPlanes.iter.map fun p =>
            (c.relativeSpacing.iter.map fun rs =>
              (c.satelliteInterval.iter.map fun si =>
                (c.orbit.iter.filterMap fun ob =>
                  if specKeep n p rs then
                    some (Constellation.init c.constellationType (.scalar n)
                      (.scalar p) (.scalar rs) (.scalar si)
                      (OrbitField.ofCand ob) none none)
                  else none)).flatten).flatten).flatten).flatten) ∧
    (∀ (c : Constellation) (sats : List Satellite),
      (c.constellationType = some .DELTA_HOMOGENOUS ∨
        c.constellationType = some .DELTA_HETEROGENEOUS) →
      c.satellites = none →
      (∀ pv ∈ c.numberPlanes.iter, ∀ nv ∈ c.numberSatellites.iter,
        ∃ p0 n0, pv = some p0 ∧ nv = some n0 ∧ n0 < p0) →
      c.generate_constellations sats = .ok []) := by
  have hIff : ∀ n p rs, constellationFilter n p rs = true ↔ specKeep n p rs := by
    intro n p rs
    rcases n with _ | n <;> rcases p with _ | p <;> rcases rs with _ | rs <;>
      (simp [constellationFilter, spacingCheck, planeCountCheck, specKeep];
        try exact and_comm)
  refine ⟨hIff, ?_, ?_⟩
  · intro c hc
    have hite : ∀ (n p : Option ℕ) (rs : Option ℚ) (x : Constellation),
        (if constellationFilter n p rs then some x else none) =
          (if specKeep n p rs then some x else none) := by
      intro n p rs x
      by_cases h : specKeep n p rs
      · rw [if_pos ((hIff n p rs).mpr h), if_pos h]
      · rw [if_neg (fun hb => h ((hIff n p rs).mp hb)), if_neg h]
    unfold Constellation.iterate
    rw [if_neg (by simp [hc])]
    refine congrArg List.flatten (List.map_eq_map_iff.mpr fun n _ => ?_)
    refine congrArg List.flatten (List.map_eq_map_iff.mpr fun p _ => ?_)
    refine congrArg List.flatten (List.map_eq_map_iff.mpr fun rs _ => ?_)
    refine congrArg List.flatten (List.map_eq_map_iff.mpr fun si _ => ?_)
    exact List.filterMap_congr fun ob _ => hite n p rs _
  · intro c sats hty hsat hgt
    have hiter : c.iterate = [] := by
      unfold Constellation.iterate
      rw [if_neg (by simp [hsat])]
      refine List.flatten_eq_nil_iff.mpr fun l hl => ?_
      rcases List.mem_map.1 hl with ⟨n, hn, rfl⟩
      refine List.flatten_eq_nil_iff.mpr fun l hl => ?_
      rcases List.mem_map.1 hl with ⟨p, hp, rfl⟩
      refine List.flatten_eq_nil_iff.mpr fun l hl => ?_
      rcases List.mem_map.1 hl with ⟨rs, _, rfl⟩
      refine List.flatten_eq_nil_iff.mpr fun l hl => ?_
      rcases List.mem_map.1 hl with ⟨si, _, rfl⟩
      refine List.filterMap_eq_nil_iff.mpr fun ob _ => ?_
      rcases hgt p hp n hn with ⟨p0, n0, rfl, rfl, hlt⟩
      rw [if_neg]
      simp only [constellationFilter, planeCountCheck, Bool.and_eq_true,
        decide_eq_true_eq]
      exact fun h => absurd h.2 (Nat.not_le.mpr hlt)
    rcases hty with hty | hty <;>
      simp [Constellation.generate_constellations, hty, hiter, genDeltaHom,
        genDeltaHet]

/-- C5 witness: the concrete unbound configuration with plane candidates
3 against satellite candidates 1 and 2 satisfies the hypotheses and
generates the empty sequence. -/
theorem constellation_iterate_filter_spec_witness :
    emptyDeltaConfig.satellites = none ∧
    emptyDeltaConfig.numberPlanes.iter = [some 3] ∧
    emptyDeltaConfig.numberSatellites.iter = [some 1, some 2] ∧
    emptyDeltaConfig.generate_constellations [landsatSatellite] = .ok [] := by
  refine ⟨rfl,
    by simp +decide [emptyDeltaConfig, Constellation.init, RVal.iter],
    by simp +decide [emptyDeltaConfig, Constellation.init, RVal.iter], ?_⟩
  refine constellation_iterate_filter_spec.2.2 emptyDeltaConfig
    [landsatSatellite] (Or.inl rfl) rfl ?_
  intro pv hpv nv hnv
  simp [emptyDeltaConfig, Constellation.init, RVal.iter] at hpv hnv
  subst hpv
  rcases hnv with rfl | rfl
  · exact ⟨3, 1, rfl, rfl, by norm_num⟩
  · exact ⟨3, 2, rfl, rfl, by norm_num⟩

/-- The i-th sample of a (at least two point) linear space. -/
theorem linspaceN_getElem? (mn mx : ℚ) (m i : ℕ) :
    (linspaceN mn mx (m + 2))[i]? =
      if i < m + 2 then some (mn + i * (mx - mn) / (m + 1)) else none := by
  have hrep : linspaceN mn mx (m + 2) =
      (List.range (m + 2)).map fun i : ℕ => mn + (i : ℚ) * (mx - mn) / (m + 1) := rfl
  by_cases h : i < m + 2
  · rw [hrep, List.getElem?_map, List.getElem?_range h, if_pos h]
    rfl
  · rw [hrep, List.getElem?_map,
      List.getElem?_eq_none
        (by simpa [List.length_range] using Nat.le_of_not_lt h),
      if_neg h]
    rfl

/-- The linear space with a positive sample count and increasing bounds:
length, endpoints, strict monotonicity, and even spacing. -/
theorem linspaceN_spec (mn mx : ℚ) (n : ℕ) (hn : 1 ≤ n) (hlt : mn < mx) :
    (linspaceN mn mx n).length = n ∧
    (linspaceN mn mx n).head? = some mn ∧
    (linspaceN mn mx n).getLast? = some (if n = 1 then mn else mx) ∧
    List.Chain' (· < ·) (linspaceN mn mx n) ∧
    (∀ j a b, (linspaceN mn mx n)[j]? = some a →
      (linspaceN mn mx n)[j + 1]? = some b →
      b - a = (mx - mn) / ((n : ℚ) - 1)) := by
  match n, hn with
  | 1, _ =>
    refine ⟨rfl, rfl, rfl, List.chain'_singleton mn, fun j a b hja hjb => ?_⟩
    rcases j with _ | j <;> simp [linspaceN] at hjb
  | m + 2, _ =>
    have hm1 : ((m : ℚ) + 1) ≠ 0 := by positivity
    have hval : ∀ i : ℕ, i < m + 2 →
        (linspaceN mn mx (m + 2))[i]? =
          some (mn + i * (mx - mn) / (m + 1)) := by
      intro i hi
      rw [linspaceN_getElem?, if_pos hi]
    have hlen : (linspaceN mn mx (m + 2)).length = m + 2 := by
      have hrep : linspaceN mn mx (m + 2) =
          (List.range (m + 2)).map fun i : ℕ =>
            mn + (i : ℚ) * (mx - mn) / (m + 1) := rfl
      rw [hrep, List.length_map, List.length_range]
    have hmono : ∀ i : ℕ,
        mn + (i : ℚ) * (mx - mn) / (m + 1) <
          mn + ((i : ℚ) + 1) * (mx - mn) / (m + 1) := by
      intro i
      have hstep : (i : ℚ) * (mx - mn) < ((i : ℚ) + 1) * (mx - mn) :=
        mul_lt_mul_of_pos_right (by linarith) (by linarith)
      have hden : (0 : ℚ) < (m : ℚ) + 1 := by positivity
      have := (div_lt_div_iff_of_pos_right hden).mpr hstep
      linarith
    refine ⟨hlen, ?_, ?_, ?_, ?_⟩
    · rw [List.head?_eq_getElem?, hval 0 (by omega)]
      norm_num
    · rw [List.getLast?_eq_getElem?, hlen]
      have : m + 2 - 1 = m + 1 := by omega
      rw [this, hval (m + 1) (by omega), if_neg (by omega)]
      have : ((m : ℚ) + 1) * (mx - mn) / ((m : ℚ) + 1) = mx - mn := by
        field_simp
      push_cast
      rw [this]
      ring_nf
    · rw [List.chain'_iff_get]
      intro i hi
      rw [hlen] at hi
      have h1 : i < m + 2 := by omega
      have h2 : i + 1 < m + 2 := by omega
      have e1 := hval i h1
      have e2 := hval (i + 1) h2
      rw [List.getElem?_eq_getElem (by omega)] at e1
      rw [List.getElem?_eq_getElem (by omega)] at e2
      have e1' := Option.some.inj e1
      have e2' := Option.some.inj e2
      simp only [List.get_eq_getElem]
      rw [e1', e2']
      push_cast
      exact hmono i
    · intro j a b hja hjb
      rw [linspaceN_getElem?] at hja hjb
      by_cases h2 : j + 1 < m + 2
      · have h1 : j < m + 2 := by omega
        rw [if_pos h1] at hja
        rw [if_pos h2] at hjb
        have ha := Option.some.inj hja
        have hb := Option.some.inj hjb
        have hden : ((m : ℚ) + 2) - 1 = (m : ℚ) + 1 := by ring
        push_cast
        rw [hden, ← ha, ← hb]
        push_cast
        field_simp
        ring
      · rw [if_neg h2] at hjb
        exact absurd hjb (by simp)

/-- C4 counterexample: a QuantitativeRange with equal endpoints (5 and
5) and numberSteps 3 iterates to the constant sequence (5, 5, 5), which
is not strictly monotonically increasing. -/
theorem qr_iterate_const_range_not_strict :
    QuantitativeRange.iterate ⟨5, 5, some 3, none, none⟩ = .ok [5, 5, 5] ∧
    ¬ List.Chain' (· < ·) ([5, 5, 5] : List ℚ) := by
  constructor
  · simp +decide [QuantitativeRange.iterate, linspaceZ, linspaceN,
      List.range_succ]
  · intro h
    rw [List.chain'_iff_get] at h
    have := h 0 (by norm_num)
    simp at this

/-- C4 amended: for min strictly below max and a positive numberSteps k
(k 0, being falsy, does not select this rule), iteration yields exactly
k evenly spaced, strictly increasing values starting at min; the last
value is max, except that k 1 yields the single value min. -/
theorem qr_iterate_numberSteps (mn mx : ℚ) (k : ℤ) (ss : Option ℚ)
    (iD : Option String) (hk : 0 < k) (hlt : mn < mx) :
    ∃ l, QuantitativeRange.iterate ⟨mn, mx, some k, ss, iD⟩ = .ok l ∧
      l.length = k.toNat ∧ l.head? = some mn ∧
      l.getLast? = some (if k = 1 then mn else mx) ∧
      List.Chain' (· < ·) l ∧
      (∀ j a b, l[j]? = some a → l[j + 1]? = some b →
        b - a = (mx - mn) / ((k : ℚ) - 1)) := by
  have hk0 : k ≠ 0 := hk.ne'
  have hnn : ¬ k < 0 := not_lt.mpr hk.le
  have hn1 : 1 ≤ k.toNat := by omega
  obtain ⟨hlen, hhead, hlast, hchain, hspace⟩ :=
    linspaceN_spec mn mx k.toNat hn1 hlt
  refine ⟨linspaceN mn mx k.toNat, ?_, hlen, hhead, ?_, hchain, ?_⟩
  · simp [QuantitativeRange.iterate, linspaceZ, hk0, hnn]
  · rw [hlast]
    congr 1
    have : k.toNat = 1 ↔ k = 1 := by omega
    by_cases h1 : k = 1
    · rw [if_pos h1, if_pos (this.mpr h1)]
    · rw [if_neg h1, if_neg (fun hh => h1 (this.mp hh))]
  · intro j a b hja hjb
    have hkq : ((k.toNat : ℚ)) = (k : ℚ) := by
      exact_mod_cast congrArg (Int.cast : ℤ → ℚ) (Int.toNat_of_nonneg hk.le)
    rw [← hkq]
    exact hspace j a b hja hjb

/-- C4 witness: the range from 0 to 10 in 3 steps satisfies the
hypotheses and the conclusion. -/
theorem qr_iterate_numberSteps_witness :
    (0 : ℤ) < 3 ∧ (0 : ℚ) < 10 ∧
    ∃ l, QuantitativeRange.iterate ⟨0, 10, some 3, none, none⟩ = .ok l ∧
      l.length = (3 : ℤ).toNat ∧ l.head? = some 0 ∧
      l.getLast? = some (if (3 : ℤ) = 1 then 0 else 10) ∧
      List.Chain' (· < ·) l ∧
      (∀ j a b, l[j]? = some a → l[j + 1]? = some b →
        b - a = ((10 : ℚ) - 0) / (((3 : ℤ) : ℚ) - 1)) :=
  ⟨by norm_num, by norm_num,
    qr_iterate_numberSteps 0 10 3 none none (by norm_num) (by norm_num)⟩

/-- itertools.combinations emits Nat.choose-many combinations. -/
theorem combos_length {α : Type} : ∀ (r : ℕ) (l : List α),
    (combos r l).length = l.length.choose r
  | 0, l => by simp [combos]
  | r + 1, [] => by simp [combos]
  | r + 1, x :: xs => by
    simp [combos, combos_length r xs, combos_length (r + 1) xs,
      Nat.choose_succ_succ]

/-- Every emitted combination has the requested size and draws its
elements from the input. -/
theorem combos_mem {α : Type} : ∀ (r : ℕ) (l : List α) (c : List α),
    c ∈ combos r l → c.length = r ∧ ∀ x ∈ c, x ∈ l
  | 0, l, c => by
    intro hc
    simp [combos] at hc
    simp [hc]
  | r + 1, [], c => by
    intro hc
    simp [combos] at hc
  | r + 1, x :: xs, c => by
    intro hc
    rw [combos, List.mem_append] at hc
    rcases hc with hc | hc
    · rcases List.mem_map.1 hc with ⟨c', hc', rfl⟩
      obtain ⟨hlen, hsub⟩ := combos_mem r xs c' hc'
      refine ⟨by simp [hlen], ?_⟩
      intro y hy
      rcases List.mem_cons.1 hy with rfl | hy
      · exact List.mem_cons_self _ _
      · exact List.mem_cons_of_mem x (hsub y hy)
    · obtain ⟨hlen, hsub⟩ := combos_mem (r + 1) xs c hc
      exact ⟨hlen, fun y hy => List.mem_cons_of_mem x (hsub y hy)⟩

/-- Shape of every network produced by the generate_networks loop. -/
theorem genNetworks_ok_mem (pool : List GroundStation) :
    ∀ (cfgs : List GroundNetwork) (nets : List GroundNetwork),
    genNetworks pool cfgs = .ok nets → ∀ net ∈ nets,
    ∃ cfg ∈ cfgs, ∃ r, cfg.numberStations.scalar? = some r ∧
      ∃ sel ∈ combos r (pool.filter (stationMatch cfg.agency)),
        net = GroundNetwork.init cfg.name cfg.acronym cfg.agency
          cfg.numberStations (some sel) none
  | [], nets => by
    intro h net hnet
    simp [genNetworks] at h
    subst h
    simp at hnet
  | cfg :: cfgs, nets => by
    intro h net hnet
    rw [genNetworks] at h
    rcases hr : cfg.numberStations.scalar? with _ | r <;> rw [hr] at h
    · exact absurd h (by simp)
    rcases hrest : genNetworks pool cfgs with e | rest <;> rw [hrest] at h
    · exact absurd h (by simp)
    rcases h with ⟨rfl⟩
    rcases List.mem_append.1 hnet with hnet | hnet
    · rcases List.mem_map.1 hnet with ⟨sel, hsel, rfl⟩
      exact ⟨cfg, List.mem_cons_self cfg cfgs, r, hr, sel, hsel, rfl⟩
    · obtain ⟨cfg', hcfg', rest'⟩ :=
        genNetworks_ok_mem pool cfgs rest hrest net hnet
      exact ⟨cfg', List.mem_cons_of_mem cfg hcfg', rest'⟩

/-- Count of networks produced by the generate_networks loop. -/
theorem genNetworks_ok_length (pool : List GroundStation) :
    ∀ (cfgs : List GroundNetwork) (nets : List GroundNetwork),
    genNetworks pool cfgs = .ok nets →
    nets.length = (cfgs.map fun cfg =>
      (pool.filter (stationMatch cfg.agency)).length.choose
        ((cfg.numberStations.scalar?).getD 0)).sum
  | [], nets => by
    intro h
    simp [genNetworks] at h
    subst h
    simp
  | cfg :: cfgs, nets => by
    intro h
    rw [genNetworks] at h
    rcases hr : cfg.numberStations.scalar? with _ | r <;> rw [hr] at h
    · exact absurd h (by simp)
    rcases hrest : genNetworks pool cfgs with e | rest <;> rw [hrest] at h
    · exact absurd h (by simp)
    rcases h with ⟨rfl⟩
    simp [combos_length, genNetworks_ok_length pool cfgs rest hrest, hr]

/-- C9: whenever generate_networks succeeds, every produced network
carries exactly numberStations member stations, each drawn from the
candidate pool and agency-type compatible with that network's agency
(an absent network agency admits every station), and the total count is
one network per combination of numberStations valid stations, summed
over the iterated configurations. -/
theorem generate_networks_agency_filter (gn : GroundNetwork)
    (pool : List GroundStation) (nets : List GroundNetwork)
    (h : gn.generate_networks pool = .ok nets) :
    (∀ net ∈ nets, ∃ stl, net.groundStations = some stl ∧
      stl.length = (net.numberStations.scalar?).getD 0 ∧
      ∀ st ∈ stl, st ∈ pool ∧ stationMatch net.agency st = true) ∧
    nets.length = ((GroundNetwork.iterate gn).map fun cfg =>
      (pool.filter (stationMatch cfg.agency)).length.choose
        ((cfg.numberStations.scalar?).getD 0)).sum ∧
    (∀ st, stationMatch none st = true) := by
  refine ⟨?_, genNetworks_ok_length pool gn.iterate nets h, fun st => rfl⟩
  intro net hnet
  obtain ⟨cfg, _, r, hr, sel, hsel, rfl⟩ :=
    genNetworks_ok_mem pool gn.iterate nets h net hnet
  obtain ⟨hlen, hsub⟩ :=
    combos_mem r (pool.filter (stationMatch cfg.agency)) sel hsel
  refine ⟨sel, rfl, ?_, ?_⟩
  · simp [GroundNetwork.init, hr, hlen]
  · intro st hst
    have := hsub st hst
    rw [List.mem_filter] at this
    exact ⟨this.1, this.2⟩

/-- C9 witness: the government-constrained two-station network over a
pool of two government stations and one agency-less station generates
exactly one network, whose members are the two government stations. -/
theorem generate_networks_agency_filter_witness :
    (∃ nets, govNetwork.generate_networks witnessPool = .ok nets ∧
      (∀ net ∈ nets, ∃ stl, net.groundStations = some stl ∧
        stl.length = (net.numberStations.scalar?).getD 0 ∧
        ∀ st ∈ stl, st ∈ witnessPool ∧
          stationMatch net.agency st = true) ∧
      nets.length = 1) := by
  have hok : govNetwork.generate_networks witnessPool =
      .ok [GroundNetwork.init (some "GovNet") none (some govAgency)
        (.scalar (some 2))
        (some [witnessPool[0], witnessPool[2]]) none] := by
    simp +decide [govNetwork, govAgency, witnessPool, Agency.init,
      GroundStation.init, GroundNetwork.init, GroundNetwork.generate_networks,
      GroundNetwork.iterate, genNetworks, RVal.iter, RVal.scalar?,
      stationMatch, combos, truthyStr]
  refine ⟨_, hok, (generate_networks_agency_filter govNetwork witnessPool _
    hok).1, ?_⟩
  rw [(generate_networks_agency_filter govNetwork witnessPool _ hok).2.1]
  simp +decide [govNetwork, govAgency, witnessPool, Agency.init,
    GroundStation.init, GroundNetwork.init, GroundNetwork.iterate, RVal.iter,
    RVal.scalar?, stationMatch, truthyStr]

/-- The list helper of AgencyType.get is the element-wise map. -/
theorem agencyType_getList_eq_map : ∀ l : List JKey,
    AgencyType.getList l = l.map AgencyType.get
  | [] => rfl
  | k :: ks => by rw [AgencyType.getList, List.map_cons,
      agencyType_getList_eq_map ks]

/-- The list helper of CommunicationBand.get is the element-wise map. -/
theorem communicationBand_getList_eq_map : ∀ l : List JKey,
    CommunicationBand.getList l = l.map CommunicationBand.get
  | [] => rfl
  | k :: ks => by rw [CommunicationBand.getList, List.map_cons,
      communicationBand_getList_eq_map ks]

/-- The list helper of ObjectiveType.get is the element-wise map. -/
theorem objectiveType_getList_eq_map : ∀ l : List JKey,
    ObjectiveType.getList l = l.map ObjectiveType.get
  | [] => rfl
  | k :: ks => by rw [ObjectiveType.getList, List.map_cons,
      objectiveType_getList_eq_map ks]

/-- C8: each enumeration parser matches strings case-insensitively (a
string whose upper-casing equals a member's value parses to that
member), returns the explicit no-match None for any unrecognized string
and for unparsable (None or numeric) input instead of raising, and maps
element-wise over list input. -/
theorem enum_get_lenient :
    (∀ s m, upStr s = AgencyType.value m →
      AgencyType.get (.strK s) = .one (some m)) ∧
    (∀ s, (∀ m, upStr s ≠ AgencyType.value m) →
      AgencyType.get (.strK s) = .one none) ∧
    AgencyType.get .noneK = .one none ∧
    (∀ q, AgencyType.get (.numK q) = .one none) ∧
    (∀ l, AgencyType.get (.listK l) = .many (l.map AgencyType.get)) ∧
    (∀ s m, upStr s = CommunicationBand.value m →
      CommunicationBand.get (.strK s) = .one (some m)) ∧
    (∀ s, (∀ m, upStr s ≠ CommunicationBand.value m) →
      CommunicationBand.get (.strK s) = .one none) ∧
    CommunicationBand.get .noneK = .one none ∧
    (∀ q, CommunicationBand.get (.numK q) = .one none) ∧
    (∀ l, CommunicationBand.get (.listK l) =
      .many (l.map CommunicationBand.get)) ∧
    (∀ s m, upStr s = ObjectiveType.value m →
      ObjectiveType.get (.strK s) = .one (some m)) ∧
    (∀ s, (∀ m, upStr s ≠ ObjectiveType.value m) →
      ObjectiveType.get (.strK s) = .one none) ∧
    ObjectiveType.get .noneK = .one none ∧
    (∀ q, ObjectiveType.get (.numK q) = .one none) ∧
    (∀ l, ObjectiveType.get (.listK l) = .many (l.map ObjectiveType.get)) := by
  refine ⟨?_, ?_, rfl, fun q => rfl,
    fun l => by rw [AgencyType.get, agencyType_getList_eq_map],
    ?_, ?_, rfl, fun q => rfl,
    fun l => by rw [CommunicationBand.get, communicationBand_getList_eq_map],
    ?_, ?_, rfl, fun q => rfl,
    fun l => by rw [ObjectiveType.get, objectiveType_getList_eq_map]⟩
  · intro s m h
    cases m <;> simp [AgencyType.get, parseAgencyType, h, AgencyType.value]
  · intro s h
    rw [AgencyType.get, parseAgencyType,
      if_neg (by simpa [AgencyType.value] using h .ACADEMIC),
      if_neg (by simpa [AgencyType.value] using h .GOVERNMENT),
      if_neg (by simpa [AgencyType.value] using h .COMMERCIAL)]
  · intro s m h
    cases m <;>
      simp [CommunicationBand.get, parseCommunicationBand, h,
        CommunicationBand.value]
  · intro s h
    rw [CommunicationBand.get, parseCommunicationBand,
      if_neg (by simpa [CommunicationBand.value] using h .VHF),
      if_neg (by simpa [CommunicationBand.value] using h .UHF),
      if_neg (by simpa [CommunicationBand.value] using h .L),
      if_neg (by simpa [CommunicationBand.value] using h .S),
      if_neg (by simpa [CommunicationBand.value] using h .C),
      if_neg (by simpa [CommunicationBand.value] using h .X),
      if_neg (by simpa [CommunicationBand.value] using h .KU),
      if_neg (by simpa [CommunicationBand.value] using h .KA),
      if_neg (by simpa [CommunicationBand.value] using h .LASER)]
  · intro s m h
    cases m <;> simp [ObjectiveType.get, parseObjectiveType, h,
      ObjectiveType.value]
  · intro s h
    rw [ObjectiveType.get, parseObjectiveType,
      if_neg (by simpa [ObjectiveType.value] using h .MAX),
      if_neg (by simpa [ObjectiveType.value] using h .MIN),
      if_neg (by simpa [ObjectiveType.value] using h .TAR)]

/-- C8 witness: concrete lower- and mixed-case strings parse to their
members, and an unrecognized string parses to None. -/
theorem enum_get_lenient_witness :
    upStr "academic" = AgencyType.value .ACADEMIC ∧
    AgencyType.get (.strK "academic") = .one (some .ACADEMIC) ∧
    upStr "Laser" = CommunicationBand.value .LASER ∧
    CommunicationBand.get (.strK "Laser") = .one (some .LASER) ∧
    upStr "tar" = ObjectiveType.value .TAR ∧
    ObjectiveType.get (.strK "tar") = .one (some .TAR) ∧
    AgencyType.get (.strK "NASA") = .one none :=
  ⟨by decide, enum_get_lenient.1 "academic" .ACADEMIC (by decide),
    by decide,
    enum_get_lenient.2.2.2.2.2.1 "Laser" .LASER (by decide),
    by decide,
    enum_get_lenient.2.2.2.2.2.2.2.2.2.2.1 "tar" .TAR (by decide),
    enum_get_lenient.2.1 "NASA" (by intro m; cases m <;> decide)⟩

/-- A successful key lookup comes from an entry of the object. -/
theorem lookupD_mem {k : String} {v : Doc} :
    ∀ d : List (String × Doc), lookupD k d = some v → (k, v) ∈ d
  | [], h => by simp [lookupD] at h
  | (k', v') :: ps, h => by
    rw [lookupD] at h
    by_cases hk : k' = k
    · rw [if_pos hk] at h
      rcases h with ⟨rfl⟩
      subst hk
      exact List.mem_cons_self _ _
    · rw [if_neg hk] at h
      exact List.mem_cons_of_mem _ (lookupD_mem ps h)

/-- Every value in the output of a renaming step is a value of the
input object. -/
theorem renameKey_sub {d : List (String × Doc)} {rk nk : String}
    {p : String × Doc} (hp : p ∈ renameKey d rk nk) :
    ∃ q ∈ d, p.2 = q.2 := by
  rw [renameKey] at hp
  split at hp
  · rename_i v hv
    split at hp
    · rcases List.mem_append.1 hp with hp | hp
      · exact ⟨p, List.mem_of_mem_filter hp, rfl⟩
      · rcases List.mem_singleton.1 hp with rfl
        exact ⟨(rk, v), lookupD_mem d hv, rfl⟩
    · exact ⟨p, hp, rfl⟩
  · exact ⟨p, hp, rfl⟩

/-- Every value in a finalized object is a value of the raw object. -/
theorem finalize_sub {d : List (String × Doc)} {p : String × Doc}
    (hp : p ∈ Entity.finalize d) : ∃ q ∈ d, p.2 = q.2 := by
  obtain ⟨q, hq, he⟩ := renameKey_sub hp
  obtain ⟨q', hq', he'⟩ := renameKey_sub hq
  exact ⟨q', hq', he.trans he'⟩

/-- An object is null-free exactly when each of its values is. -/
theorem hasNullObj_eq_false : ∀ l : List (String × Doc),
    Doc.hasNullObj l = false ↔ ∀ p ∈ l, p.2.hasNull = false
  | [] => by simp [Doc.hasNullObj]
  | p :: ps => by
    rw [Doc.hasNullObj, Bool.or_eq_false_iff, hasNullObj_eq_false ps]
    simp

/-- Each class parser inverts the member-value encoding. -/
theorem parseAgencyType_value (t : AgencyType) :
    parseAgencyType (upStr t.value) = some t := by
  cases t <;> rfl

/-- A base entity encodes with no null marker anywhere. -/
theorem entity_to_dict_noNull (e : Entity) :
    ∀ p ∈ e.to_dict, p.2.hasNull = false := by
  intro p hp
  obtain ⟨q, hq, he⟩ := finalize_sub hp
  rw [he]
  rcases e with ⟨_ | i⟩ <;>
    · simp only [Entity.to_dict, optStr, List.nil_append,
        List.cons_append, List.append_nil] at hq
      fin_cases hq <;> rfl

/-- An agency encodes with no null marker anywhere. -/
theorem agency_to_dict_noNull (a : Agency) :
    ∀ p ∈ a.to_dict, p.2.hasNull = false := by
  intro p hp
  obtain ⟨q, hq, he⟩ := finalize_sub hp
  rw [he]
  rcases a with ⟨nm, ac, ty, iD⟩
  rcases nm with _ | ns <;> rcases ac with _ | as_ <;>
    rcases ty with _ | t <;> rcases iD with _ | i <;>
    · simp only [Agency.to_dict, optStr, List.nil_append,
        List.cons_append, List.append_nil] at hq
      fin_cases hq <;> rfl

/-- A quantitative range encodes with no null marker anywhere. -/
theorem quantitativeRange_to_dict_noNull (r : QuantitativeRange) :
    ∀ p ∈ r.to_dict, p.2.hasNull = false := by
  intro p hp
  obtain ⟨q, hq, he⟩ := finalize_sub hp
  rw [he]
  rcases r with ⟨mn, mx, ns, sz, iD⟩
  rcases ns with _ | k <;> rcases sz with _ | s <;> rcases iD with _ | i <;>
    · simp only [QuantitativeRange.to_dict, optNum, optInt, optStr,
        List.nil_append, List.cons_append, List.append_nil] at hq
      fin_cases hq <;> rfl

/-- A ground station encodes with no null marker anywhere (including
inside its nested agency object). -/
theorem groundStation_to_dict_noNull (gs : GroundStation) :
    ∀ p ∈ gs.to_dict, p.2.hasNull = false := by
  intro p hp
  obtain ⟨q, hq, he⟩ := finalize_sub hp
  rw [he]
  rcases gs with ⟨nm, ac, ag, la, lo, el, iD⟩
  rcases nm with _ | ns <;> rcases ac with _ | as_ <;>
    rcases ag with _ | a <;> rcases la with _ | lav <;>
    rcases lo with _ | lov <;> rcases el with _ | elv <;>
    rcases iD with _ | i <;>
    · simp only [GroundStation.to_dict, optNum, optStr, List.nil_append,
        List.cons_append, List.append_nil] at hq
      fin_cases hq <;>
        first
          | rfl
          | (simp only [Doc.hasNull]
             exact (hasNullObj_eq_false _).mpr (agency_to_dict_noNull a))

/-- Round trip for a base entity with a truthy identifier. -/
theorem entity_roundtrip (i : String) (hi : i ≠ "") :
    Entity.from_dict (Entity.to_dict ⟨some i⟩) = ⟨some i⟩ := by
  simp [Entity.to_dict, Entity.from_dict, Entity.finalize, renameKey, lookupD,
    optStr, Doc.truthy, Doc.str?, hi]

/-- Round trip for a fully populated agency with truthy strings. -/
theorem agency_roundtrip (ns as_ i : String) (t : AgencyType)
    (hns : ns ≠ "") (has : as_ ≠ "") (hi : i ≠ "") :
    Agency.from_dict (Agency.to_dict ⟨some ns, some as_, some t, some i⟩) =
      ⟨some ns, some as_, some t, some i⟩ := by
  simp [Agency.to_dict, Agency.from_dict, Entity.finalize, renameKey, lookupD,
    optStr, Doc.truthy, Doc.str?, hns, has, hi, Agency.init, truthyStr,
    parseAgencyType_value]

/-- Round trip for a fully populated quantitative range with truthy
identifier. -/
theorem quantitativeRange_roundtrip (mn mx sz : ℚ) (k : ℤ) (i : String)
    (hi : i ≠ "") :
    QuantitativeRange.from_dict
        (QuantitativeRange.to_dict ⟨mn, mx, some k, some sz, some i⟩) =
      some ⟨mn, mx, some k, some sz, some i⟩ := by
  simp [QuantitativeRange.to_dict, QuantitativeRange.from_dict,
    Entity.finalize, renameKey, lookupD, optNum, optInt, optStr, Doc.truthy,
    Doc.str?, Doc.num?, Doc.int?, hi]

/-- Round trip for a fully populated ground station (with a fully
populated nested agency), all strings truthy. -/
theorem groundStation_roundtrip (ns as_ an aa ai i : String)
    (t : AgencyType) (la lo el : ℚ) (hns : ns ≠ "") (has : as_ ≠ "")
    (han : an ≠ "") (haa : aa ≠ "") (hai : ai ≠ "") (hi : i ≠ "") :
    GroundStation.from_dict (GroundStation.to_dict
        ⟨some ns, some as_, some ⟨some an, some aa, some t, some ai⟩,
          some la, some lo, some el, some i⟩) =
      ⟨some ns, some as_, some ⟨some an, some aa, some t, some ai⟩,
        some la, some lo, some el, some i⟩ := by
  simp [GroundStation.to_dict, GroundStation.from_dict, Agency.to_dict,
    Agency.from_dict, Entity.finalize, renameKey, lookupD, optNum, optStr,
    Doc.truthy, Doc.str?, Doc.num?, hns, has, han, haa, hai, hi,
    GroundStation.init, Agency.init, truthyStr, parseAgencyType_value]

/-- With a truthy identifier the identity and type entries appear only
under the reserved keys. -/
theorem agency_to_dict_reserved (a : Agency) (i : String)
    (hid : a.entityId = some i) (hi : i ≠ "") :
    lookupD "_id" a.to_dict = none ∧
    lookupD "@id" a.to_dict = some (.str i) ∧
    lookupD "_type" a.to_dict = none ∧
    lookupD "@type" a.to_dict = some (.str "Agency") := by
  rcases a with ⟨nm, ac, ty, iD⟩
  cases hid
  rcases nm with _ | ns <;> rcases ac with _ | as_ <;> rcases ty with _ | t <;>
    simp [Agency.to_dict, Entity.finalize, renameKey, lookupD, optStr,
      Doc.truthy, hi]

/-- Unset optional fields are omitted entirely from the encoding. -/
theorem quantitativeRange_to_dict_unset (mn mx : ℚ) :
    QuantitativeRange.to_dict ⟨mn, mx, none, none, none⟩ =
      [("minValue", .num mn), ("maxValue", .num mx),
        ("@type", .str "QuantitativeRange")] := by
  simp [QuantitativeRange.to_dict, Entity.finalize, renameKey, lookupD,
    optNum, optInt, optStr, Doc.truthy]

/-- C3 counterexample: an entity whose identifier is populated with the
empty string (falsy) is encoded with its identity under the raw key
"_id", not the reserved key "@id", and decoding the encoding loses the
identifier. -/
theorem entity_falsy_id_breaks_roundtrip :
    Entity.to_dict ⟨some ""⟩ =
      [("_id", Doc.str ""), ("@type", Doc.str "Entity")] ∧
    Entity.from_dict (Entity.to_dict ⟨some ""⟩) = ⟨none⟩ ∧
    (⟨none⟩ : Entity) ≠ ⟨some ""⟩ := by
  refine ⟨?_, ?_, by simp⟩ <;> rfl

/-- C3 amended: for the modelled entity classes, decoding the encoding
reproduces every populated field exactly provided the identifier (and
the string fields the constructors test for truthiness) are non-empty;
unset fields are omitted entirely; no null marker ever appears in an
encoding; and the identity and type fields appear only under the
reserved keys when their values are truthy (a falsy identifier stays
under the raw key, as the counterexample shows). -/
theorem codec_roundtrip_truthy :
    (∀ i : String, i ≠ "" →
      Entity.from_dict (Entity.to_dict ⟨some i⟩) = ⟨some i⟩) ∧
    (∀ (ns as_ i : String) (t : AgencyType), ns ≠ "" → as_ ≠ "" → i ≠ "" →
      Agency.from_dict (Agency.to_dict ⟨some ns, some as_, some t, some i⟩) =
        ⟨some ns, some as_, some t, some i⟩) ∧
    (∀ (mn mx sz : ℚ) (k : ℤ) (i : String), i ≠ "" →
      QuantitativeRange.from_dict
          (QuantitativeRange.to_dict ⟨mn, mx, some k, some sz, some i⟩) =
        some ⟨mn, mx, some k, some sz, some i⟩) ∧
    (∀ (ns as_ an aa ai i : String) (t : AgencyType) (la lo el : ℚ),
      ns ≠ "" → as_ ≠ "" → an ≠ "" → aa ≠ "" → ai ≠ "" → i ≠ "" →
      GroundStation.from_dict (GroundStation.to_dict
          ⟨some ns, some as_, some ⟨some an, some aa, some t, some ai⟩,
            some la, some lo, some el, some i⟩) =
        ⟨some ns, some as_, some ⟨some an, some aa, some t, some ai⟩,
          some la, some lo, some el, some i⟩) ∧
    (∀ e : Entity, ∀ p ∈ e.to_dict, p.2.hasNull = false) ∧
    (∀ a : Agency, ∀ p ∈ a.to_dict, p.2.hasNull = false) ∧
    (∀ r : QuantitativeRange, ∀ p ∈ r.to_dict, p.2.hasNull = false) ∧
    (∀ gs : GroundStation, ∀ p ∈ gs.to_dict, p.2.hasNull = false) ∧
    (∀ (a : Agency) (i : String), a.entityId = some i → i ≠ "" →
      lookupD "_id" a.to_dict = none ∧
      lookupD "@id" a.to_dict = some (.str i) ∧
      lookupD "_type" a.to_dict = none ∧
      lookupD "@type" a.to_dict = some (.str "Agency")) ∧
    (∀ mn mx : ℚ, QuantitativeRange.to_dict ⟨mn, mx, none, none, none⟩ =
      [("minValue", .num mn), ("maxValue", .num mx),
        ("@type", .str "QuantitativeRange")]) :=
  ⟨entity_roundtrip, agency_roundtrip, quantitativeRange_roundtrip,
    groundStation_roundtrip, entity_to_dict_noNull, agency_to_dict_noNull,
    quantitativeRange_to_dict_noNull, groundStation_to_dict_noNull,
    agency_to_dict_reserved, quantitativeRange_to_dict_unset⟩

/-- C3 witness: a concrete fully populated agency with non-empty strings
round-trips exactly. -/
theorem codec_roundtrip_truthy_witness :
    ("NASA" : String) ≠ "" ∧ ("N" : String) ≠ "" ∧ ("a1" : String) ≠ "" ∧
    Agency.from_dict (Agency.to_dict
        ⟨some "NASA", some "N", some .GOVERNMENT, some "a1"⟩) =
      ⟨some "NASA", some "N", some .GOVERNMENT, some "a1"⟩ :=
  ⟨by decide, by decide, by decide,
    codec_roundtrip_truthy.2.1 "NASA" "N" "a1" .GOVERNMENT (by decide)
      (by decide) (by decide)⟩
